import Mathlib

/-!
Formal model of pyTicker's stateful polling loop (`src/ticker.py`, function `main`).

The loop body, the hotkey handler and the fetch/error dispatch are embedded as
pure Lean functions over a `TickerState` record holding exactly the mutable
variables of `main`.  Prices are exact rationals; Python's `round(x, n)`
(round-half-to-even at `n` decimal places) is `pyRound`.  Wall-clock timestamps
are opaque strings supplied as inputs of each iteration.  The quote fetches are
inputs of type `Except FetchErr ℚ`, mirroring the four exception kinds caught
at lines 381-413 of the source; `sys.exit(n)` is modelled by the iteration
returning `Except.error n`.  Console rendering is out of scope except for the
data it branches on: the per-tick output record keeps the alert classification
of the VALUE line, the style of the BEST line, the brief-mode price highlight,
and whether a CSV record was written.  The CSV file handle is modelled by a
single flag, because `write_csv_file` closes the file after every write
(line 157) while the handle is reopened only inside the `try` block after
both fetches succeed (lines 376-380): a later tick whose fetch failed
therefore writes to a closed handle at line 543, and the resulting uncaught
`ValueError` terminates the process (CPython exit status 1).
-/

namespace PyTicker

attribute [local semireducible] Rat.mul Rat.add Rat.sub Rat.inv

/-- Floor of a rational, computed on its reduced numerator and denominator. -/
def ratFloor (x : ℚ) : ℤ := x.num.fdiv x.den

/-- Round a rational to the nearest integer, halves to the nearest even
integer — the rounding Python's builtin `round` applies. -/
def roundHalfEven (x : ℚ) : ℤ :=
  let f : ℤ := ratFloor x
  let r : ℚ := x - f
  if r < 1/2 then f
  else if 1/2 < r then f + 1
  else if f % 2 = 0 then f else f + 1

/-- Python's `round(x, n)` for a nonnegative digit count `n`, on exact
rationals. -/
def pyRound (x : ℚ) (n : ℕ) : ℚ :=
  (roundHalfEven (x * 10 ^ n) : ℚ) / 10 ^ n

/-- The four exception kinds caught around the quote fetches
(`requests.exceptions.ConnectionError`, `requests.exceptions.ReadTimeout`,
`AssertionError`, `JSONDecodeError`; ticker.py lines 381-413). -/
inductive FetchErr
  | connectionError
  | readTimeout
  | assertionError
  | jsonDecodeError
deriving DecidableEq

/-- Run configuration fixed before the loop starts: the command-line derived
values `main` never reassigns inside the loop (symbol, currency, multiplier,
rounding digits, the `-b`, `-tv`, `-p` flags and the CSV output path). -/
structure Config where
  symbol : String
  currency : String
  multiplier : ℚ
  rnd_val : ℕ
  args_b : Bool
  args_tv : Bool
  args_p : Option ℚ
  out_file : String
deriving DecidableEq

/-- The mutable variables of `main` that survive from one loop iteration to
the next.  `bell` is `true` when the bell string equals `DEF_BELL` (audible)
and `false` when it is the empty string; `multi_bell` always mirrors it in the
source so it is not duplicated here.  `csv_open` is `true` exactly when the
`csv_file` variable holds an open file object: initially it holds the string
`""` (line 299), it is (re)opened at lines 376-380 after both fetches
succeed, and `write_csv_file` closes it again at line 157. -/
structure TickerState where
  stock_price : ℚ
  curr_val : ℚ
  best_price : ℚ
  last_best_price : ℚ
  low_fx : ℚ
  best_value : ℚ
  value : ℚ
  val_delta : Option ℚ
  price_delta : Option ℚ
  fx_delta : Option ℚ
  threshold : ℚ
  thresh_change : ℚ
  refresh : ℤ
  refresh_inc : ℤ
  bell : Bool
  peak_stk_time : String
  low_fx_time : String
  peak_val_time : String
  start_time : String
  start_date : String
  start_time_est : String
  first_run : Bool
  tick_tock : Bool
  quit_flag : Bool
  csv_open : Bool
deriving DecidableEq

/-- The state `main` sets up before entering the loop (lines 260, 299-323):
bests and lows start at zero, deltas empty, `first_run` and `tick_tock` true. -/
def initState (threshold thresh_change : ℚ) (refresh refresh_inc : ℤ)
    (bell : Bool) (t dte est : String) : TickerState :=
  { stock_price := 0, curr_val := 0, best_price := 0, last_best_price := 0,
    low_fx := 0, best_value := 0, value := 0,
    val_delta := none, price_delta := none, fx_delta := none,
    threshold := threshold, thresh_change := thresh_change,
    refresh := refresh, refresh_inc := refresh_inc, bell := bell,
    peak_stk_time := t, low_fx_time := t, peak_val_time := t,
    start_time := t, start_date := dte, start_time_est := est,
    first_run := true, tick_tock := true, quit_flag := false, csv_open := false }

/-- Alert classification of the VALUE line (lines 487-513): triple bell when
the pre-rounding value exceeds a configured threshold, reverse-video highlight
on a strict new high, plain otherwise. -/
inductive AlertKind
  | noAlert
  | newHigh
  | thresholdCrossed
deriving DecidableEq

/-- Styling of the BEST line (lines 518-532): `baseline` on the first run,
`improved` (highlight + bell, timestamp reset) on a strict new best,
`matched` (highlight only) on an exact tie, `plain` otherwise, `hidden` in
brief output mode where the line is not printed at all. -/
inductive BestLine
  | baseline
  | improved
  | matched
  | plain
  | hidden
deriving DecidableEq

/-- Observable per-tick output: the VALUE-line alert (absent on the first run
and in brief mode), the BEST-line style, whether the brief-mode price
highlight fired, and whether a CSV record was written (line 538). -/
structure TickOutput where
  alert : Option AlertKind
  bestLine : BestLine
  priceHighlight : Bool
  csv_emitted : Bool
deriving DecidableEq

/-- Output of an iteration whose fetch raised on the first run: the process
exits before rendering anything. -/
def noOutput : TickOutput :=
  { alert := none, bestLine := .hidden, priceHighlight := false,
    csv_emitted := false }

/-- Inputs consumed by one loop iteration: the two fetch outcomes, the
timestamps taken during the tick, and the at-most-one keystroke read after the
countdown (with the timestamps the reset handler would take). -/
structure TickInput where
  primary : Except FetchErr ℚ
  fx : Except FetchErr ℚ
  now : String
  est_time : String
  key : Option Char
  key_time : String
  key_date : String
  key_est : String

/-- Lines 376-380: once both fetches have succeeded, (re)open the CSV file
when an output path is configured.  This sits inside the `try` block, so it
is skipped whenever either fetch raised. -/
def openCsv (cfg : Config) (s : TickerState) : TickerState :=
  if cfg.out_file ≠ "" then { s with csv_open := true } else s

/-- The `try` block of lines 368-413: fetch the primary price (rounded at
`rnd_val` and, on the first run, seeding `best_price`/`last_best_price`), then
the fx rate (1 for USD, otherwise a second fetch, rounded), then reopen the
CSV file.  A raise on the first run is `sys.exit(3)`; on later runs the
handler only prints, so the variables assigned before the raise keep their
new values and the rest (including the closed CSV handle) keep their
previous ones. -/
def fetchPhase (cfg : Config) (s : TickerState)
    (primary fx : Except FetchErr ℚ) : Except ℕ TickerState :=
  match primary with
  | .error _ => if s.first_run then .error 3 else .ok s
  | .ok p =>
    let sp := pyRound p cfg.rnd_val
    let s1 := { s with stock_price := sp }
    let s2 := if s1.first_run
      then { s1 with best_price := sp, last_best_price := sp }
      else s1
    if cfg.currency = "usd" then .ok (openCsv cfg { s2 with curr_val := 1 })
    else
      match fx with
      | .error _ => if s2.first_run then .error 3 else .ok s2
      | .ok f => .ok (openCsv cfg { s2 with curr_val := pyRound f cfg.rnd_val })

/-- The value a tick computes from the price registers (lines 421-423): the
multiplier times the `rnd_val`-rounded currency equivalent, rounded to two
decimal places. -/
def tickValue (cfg : Config) (sp cv : ℚ) : ℚ :=
  pyRound (cfg.multiplier * pyRound (sp / cv) cfg.rnd_val) 2

/-- Lines 421-435: compute the rounded currency equivalent and the value; on a
non-first run also the three percentage deltas, on the first run seed
`low_fx`/`best_value` and, in `-tv` mode, derive the threshold and its hotkey
step from the opening value. -/
def computeValues (cfg : Config) (s : TickerState) : TickerState :=
  let curr_equiv := pyRound (s.stock_price / s.curr_val) cfg.rnd_val
  let value := pyRound (cfg.multiplier * curr_equiv) 2
  if s.first_run then
    let s1 := { s with low_fx := s.curr_val, value := value, best_value := value }
    if cfg.args_tv then
      let tc := match cfg.args_p with
        | none => value / 100
        | some p => value * p / 100
      { s1 with threshold := value, thresh_change := tc }
    else s1
  else
    { s with value := value,
             val_delta := some (pyRound ((value / s.best_value - 1) * 100) 2),
             price_delta := some (pyRound ((s.stock_price / s.best_price - 1) * 100) 2),
             fx_delta := some (pyRound ((s.curr_val / s.low_fx - 1) * 100) 2) }

/-- Lines 439-445: raise `best_price` (remembering the previous one and the
time) when the price strictly improved, lower `low_fx` when the fx rate
strictly improved. -/
def updateBests (s : TickerState) (now : String) : TickerState :=
  let s1 := if s.best_price < s.stock_price
    then { s with last_best_price := s.best_price, best_price := s.stock_price,
                  peak_stk_time := now }
    else s
  if s1.curr_val < s1.low_fx
    then { s1 with low_fx := s1.curr_val, low_fx_time := now }
    else s1

/-- Lines 466-471: in brief mode (`-b` given, so `args.b` false) the symbol
line is highlighted with a bell when `best_price` exceeds `last_best_price`,
and `last_best_price` is caught up. -/
def priceLineStep (cfg : Config) (s : TickerState) : TickerState × Bool :=
  if ¬cfg.args_b ∧ s.last_best_price < s.best_price
    then ({ s with last_best_price := s.best_price }, true)
    else (s, false)

/-- The branch structure of the VALUE line, lines 491-513: threshold crossing
(checked on the pre-rounding product `multiplier * curr_equiv`) takes priority
over the strict-new-high highlight; a zero threshold disables the check. -/
def classifyValueLine (threshold multiplier curr_equiv value best_value : ℚ) :
    AlertKind :=
  if threshold ≠ 0 then
    if threshold < multiplier * curr_equiv then .thresholdCrossed
    else if best_value < value then .newHigh
    else .noAlert
  else if best_value < value then .newHigh
  else .noAlert

/-- Lines 487-513: the VALUE line is printed, and classified, only when not in
brief mode and not on the first run. -/
def valueLineAlert (cfg : Config) (s : TickerState) : Option AlertKind :=
  if cfg.args_b ∧ ¬s.first_run then
    some (classifyValueLine s.threshold cfg.multiplier
      (pyRound (s.stock_price / s.curr_val) cfg.rnd_val) s.value s.best_value)
  else none

/-- Lines 518-532 (inside the non-brief branch): first run re-seeds
`best_value`; a strict improvement updates `best_value` and resets
`peak_val_time`; an exact tie is highlighted without touching either. -/
def bestLineStep (cfg : Config) (s : TickerState) (now : String) :
    TickerState × BestLine :=
  if cfg.args_b then
    if s.first_run then ({ s with best_value := s.value }, .baseline)
    else if s.best_value < s.value then
      ({ s with best_value := s.value, peak_val_time := now }, .improved)
    else if s.value = s.best_value then (s, .matched)
    else (s, .plain)
  else (s, .hidden)

/-- Everything an iteration does after the fetch and before the CSV write:
lines 417-445 (values, deltas, best marks), the tick-tock flip of lines
449-458, the price line, the VALUE-line classification and the BEST line.
The CSV write of lines 538-543 is `csvStep`, run next by `loopIter`, which
alone decides the `csv_emitted` flag; here it is the neutral `false`. -/
def computePhase (cfg : Config) (s : TickerState) (now : String) :
    TickerState × TickOutput :=
  let s1 := computeValues cfg s
  let s2 := updateBests s1 now
  let s3 := { s2 with tick_tock := !s2.tick_tock }
  let pr := priceLineStep cfg s3
  let al := valueLineAlert cfg pr.1
  let bl := bestLineStep cfg pr.1 now
  (bl.1, { alert := al, bestLine := bl.2, priceHighlight := pr.2,
           csv_emitted := false })

/-- The hotkey dispatch of lines 555-615, applied to at most one keystroke per
iteration.  `R` re-arms `first_run` and clears the timestamps and deltas; `U`
and `D` move the threshold (down clamps at zero); `F` and `S` move the refresh
interval (`F` floors as in the source); `B` toggles the bell; `T` and unknown
keys change nothing. -/
def applyKey (s : TickerState) (key : Char) (t dte est : String) : TickerState :=
  if key = 'Q' ∨ key = 'q' then { s with quit_flag := true }
  else if key = 'R' ∨ key = 'r' then
    { s with first_run := true,
             start_date := dte, start_time := t, start_time_est := est,
             peak_val_time := t, peak_stk_time := t, low_fx_time := t,
             val_delta := none, price_delta := none, fx_delta := none }
  else if key = 'U' ∨ key = 'u' then
    { s with threshold := s.threshold + s.thresh_change }
  else if key = 'D' ∨ key = 'd' then
    if s.threshold - s.thresh_change ≤ 0 then { s with threshold := 0 }
    else { s with threshold := s.threshold - s.thresh_change }
  else if key = 'F' ∨ key = 'f' then
    if s.refresh - s.refresh_inc ≤ 2 then { s with refresh := s.refresh_inc }
    else { s with refresh := s.refresh - s.refresh_inc }
  else if key = 'S' ∨ key = 's' then { s with refresh := s.refresh + s.refresh_inc }
  else if key = 'T' ∨ key = 't' then s
  else if key = 'B' ∨ key = 'b' then { s with bell := !s.bell }
  else s

/-- The CSV write of lines 538-543, guarded by `if out_file != ""`.
`write_csv_file` writes to `csv_file` and closes it (line 157).  When the
handle is still closed — which is the case on every tick whose fetch failed,
since the reopen of lines 376-380 sits after the fetches inside the `try` —
the write raises an uncaught `ValueError` and the process dies; CPython
reports exit status 1 for an uncaught exception.  The returned flag records
whether a record was written. -/
def csvStep (cfg : Config) (s : TickerState) : Except ℕ (TickerState × Bool) :=
  if cfg.out_file ≠ "" then
    if s.csv_open then .ok ({ s with csv_open := false }, true)
    else .error 1
  else .ok (s, false)

/-- One full iteration of the `while not quit_flag` loop (lines 336-615),
entered with `quit_flag` false: fetch (possibly exiting with status 3 on a
first-run failure), compute and render, write the CSV record (possibly dying
with status 1 on a closed handle), drop the `first_run` flag (line 551), then
consume at most one pending keystroke. -/
def loopIter (cfg : Config) (s : TickerState) (inp : TickInput) :
    Except ℕ (TickerState × TickOutput) :=
  match fetchPhase cfg s inp.primary inp.fx with
  | .error c => .error c
  | .ok s1 =>
    let s2p := computePhase cfg s1 inp.now
    match csvStep cfg s2p.1 with
    | .error c => .error c
    | .ok (s3, wrote) =>
      let s4 := { s3 with first_run := false }
      let s5 := match inp.key with
        | none => s4
        | some k => applyKey s4 k inp.key_time inp.key_date inp.key_est
      .ok (s5, { s2p.2 with csv_emitted := wrote })

/-- Total projection of an iteration's outcome, for stating properties of
iterations that are known not to exit: on the (never taken) exit branch it
returns the input state unchanged. -/
def runStep (cfg : Config) (s : TickerState) (inp : TickInput) :
    TickerState × TickOutput :=
  match loopIter cfg s inp with
  | .ok p => p
  | .error _ => (s, noOutput)

/-- Exit status of an iteration, when it terminated the process. -/
def exitCode (r : Except ℕ (TickerState × TickOutput)) : Option ℕ :=
  match r with
  | .error c => some c
  | .ok _ => none

/-- Iterate the loop over a list of per-tick inputs, stopping at the top of an
iteration once `quit_flag` is set (the `while` guard) and propagating a
first-run fetch exit. -/
def runTicks (cfg : Config) : TickerState → List TickInput →
    Except ℕ (TickerState × List TickOutput)
  | s, [] => .ok (s, [])
  | s, inp :: rest =>
    if s.quit_flag then .ok (s, [])
    else
      match loopIter cfg s inp with
      | .error c => .error c
      | .ok (s', out) =>
        match runTicks cfg s' rest with
        | .error c => .error c
        | .ok (sf, outs) => .ok (sf, out :: outs)

/-! Concrete configurations and states used to instantiate the theorems. -/

/-- A run tracking one share in native USD, four rounding digits, full output,
no CSV file — the defaults of `parse_cmdline` apart from the symbol. -/
def cfgUsd : Config :=
  { symbol := "aapl", currency := "usd", multiplier := 1, rnd_val := 4,
    args_b := true, args_tv := false, args_p := none, out_file := "" }

/-- Same run converted to GBP, so the fx fetch is live. -/
def cfgGbp : Config := { cfgUsd with currency := "gbp" }

/-- GBP run that also writes a CSV file. -/
def cfgGbpCsv : Config := { cfgGbp with out_file := "out.csv" }

/-- USD run in threshold-from-open (`-tv`) mode. -/
def cfgTv : Config := { cfgUsd with args_tv := true }

/-- USD run in brief output mode (`-b` given, `args.b` false). -/
def cfgBrief : Config := { cfgUsd with args_b := false }

/-- Pre-loop state with the default threshold step 100, interval 20 and
increment 5. -/
def baseState : TickerState :=
  initState 0 100 20 5 true "09:00:00" "01-01-2020" "04:00:00"

/-- A mid-run GBP state: price 100 at fx rate 2, all bests equal to the
current observation, opening value 50. -/
def sMidRun : TickerState :=
  { baseState with first_run := false, stock_price := 100, curr_val := 2,
                   best_price := 100, last_best_price := 100, low_fx := 2,
                   best_value := 50, value := 50 }

/-- A mid-run USD state holding best price 150, used for the reset scenarios. -/
def sBest150 : TickerState :=
  { baseState with first_run := false, stock_price := 150, curr_val := 1,
                   best_price := 150, last_best_price := 150, low_fx := 1,
                   best_value := 150, value := 150 }

/-- A mid-run USD state at price 100 whose best value is exactly the current
value, used for the tie scenario. -/
def sTie : TickerState :=
  { baseState with first_run := false, stock_price := 100, curr_val := 1,
                   best_price := 100, last_best_price := 100, low_fx := 1,
                   best_value := 100, value := 100 }

/-- Per-tick input with both fetch outcomes given, all timestamps at `now`,
and no pending keystroke. -/
def inputAt (p f : Except FetchErr ℚ) (now : String) : TickInput :=
  { primary := p, fx := f, now := now, est_time := now, key := none,
    key_time := now, key_date := now, key_est := now }

/-! Theorems.  The claim names in the doc comments refer to the frozen claim
list for this repository. -/

/-- C5, counterexample.  The claim says one `F` keystroke sets the interval to
`max(refreshIncrement, refreshIntervalSeconds - refreshIncrement)` for every
pair of values.  At `refreshIntervalSeconds = 8`, `refreshIncrement = 5` the
source's branch `refresh - refresh_inc <= 2` is false, so the code yields
`8 - 5 = 3`, while the claimed formula yields `max 5 3 = 5`. -/
theorem c5_counterexample :
    (applyKey { baseState with refresh := 8 } 'F' "t" "d" "e").refresh = 3 ∧
    max ({ baseState with refresh := 8 } : TickerState).refresh_inc
      (({ baseState with refresh := 8 } : TickerState).refresh -
        ({ baseState with refresh := 8 } : TickerState).refresh_inc) = 5 ∧
    (3 : ℤ) ≠ 5 := by decide

/-- C5, amended.  One `F` keystroke sets `refreshIntervalSeconds` to
`refreshIncrement` when `refreshIntervalSeconds - refreshIncrement ≤ 2`, and
to `refreshIntervalSeconds - refreshIncrement` otherwise (which can fall below
one increment's worth, e.g. 8 with increment 5 yields 3); the result is always
either the increment itself or at least 3; and from
`refreshIntervalSeconds = 7` with `refreshIncrement = 5` one `F` yields
exactly 5. -/
theorem c5_refresh_hotkey :
    ∀ (s : TickerState) (t d e : String),
      ((applyKey s 'F' t d e).refresh =
        if s.refresh - s.refresh_inc ≤ 2 then s.refresh_inc
        else s.refresh - s.refresh_inc) ∧
      ((applyKey s 'F' t d e).refresh = s.refresh_inc ∨
        3 ≤ (applyKey s 'F' t d e).refresh) ∧
      (applyKey { baseState with refresh := 7, refresh_inc := 5 } 'F' t d e).refresh = 5 := by
  intro s t d e
  refine ⟨?_, ?_, ?_⟩
  · simp [applyKey]
    split_ifs <;> rfl
  · simp only [applyKey]
    simp
    split_ifs with h
    · exact Or.inl rfl
    · refine Or.inr ?_
      simp
      omega
  · simp [applyKey, baseState, initState]

/-- C6.  For every state, a `U`/`u` keystroke sets the threshold to
`threshold + thresholdStep` and a `D`/`d` keystroke to
`max (0, threshold - thresholdStep)`, which is never negative; and from
`threshold = 0` with `thresholdStep = 100`, `U` yields 100, a subsequent `D`
yields 0, and a further `D` still yields 0. -/
theorem c6_threshold_hotkeys :
    (∀ (s : TickerState) (t d e : String),
      (applyKey s 'U' t d e).threshold = s.threshold + s.thresh_change ∧
      (applyKey s 'u' t d e).threshold = s.threshold + s.thresh_change ∧
      (applyKey s 'D' t d e).threshold = max 0 (s.threshold - s.thresh_change) ∧
      (applyKey s 'd' t d e).threshold = max 0 (s.threshold - s.thresh_change) ∧
      0 ≤ (applyKey s 'D' t d e).threshold) ∧
    ((applyKey baseState 'U' "t" "d" "e").threshold = 100 ∧
      (applyKey (applyKey baseState 'U' "t" "d" "e") 'D' "t" "d" "e").threshold = 0 ∧
      (applyKey (applyKey (applyKey baseState 'U' "t" "d" "e") 'D' "t" "d" "e")
        'D' "t" "d" "e").threshold = 0) := by
  constructor
  · intro s t d e
    have hD : (applyKey s 'D' t d e).threshold = max 0 (s.threshold - s.thresh_change) := by
      simp [applyKey]
      split_ifs with h
      · have hm : max 0 (s.threshold - s.thresh_change) = 0 := max_eq_left (by linarith)
        simp [hm]
      · have hm : max 0 (s.threshold - s.thresh_change) = s.threshold - s.thresh_change :=
          max_eq_right (by linarith)
        simp [hm]
    have hd : (applyKey s 'd' t d e).threshold = max 0 (s.threshold - s.thresh_change) := by
      simp [applyKey]
      split_ifs with h
      · have hm : max 0 (s.threshold - s.thresh_change) = 0 := max_eq_left (by linarith)
        simp [hm]
      · have hm : max 0 (s.threshold - s.thresh_change) = s.threshold - s.thresh_change :=
          max_eq_right (by linarith)
        simp [hm]
    refine ⟨by simp [applyKey], by simp [applyKey], hD, hd, ?_⟩
    rw [hD]
    exact le_max_left 0 _
  · refine ⟨by decide, by decide, by decide⟩

/-- C1, counterexample.  The claim says a tick whose fetch fails mutates no
Session State, emits no CSV record, and the loop simply continues.  From a
mid-run state with `best_price = 100`, a tick whose primary fetch succeeds at
200 while the fx fetch times out still runs the whole update, so
`best_price` becomes 200; and when a CSV output file is configured the same
failed tick does not continue at all: the write to the CSV handle closed by
the previous tick raises an uncaught `ValueError` and the process dies with
exit status 1. -/
theorem c1_counterexample :
    (loopIter cfgGbp sMidRun (inputAt (.ok 200) (.error .readTimeout) "10:00:00")).isOk
      = true ∧
    (runStep cfgGbp sMidRun
      (inputAt (.ok 200) (.error .readTimeout) "10:00:00")).1.best_price = 200 ∧
    sMidRun.best_price = 100 ∧
    exitCode (loopIter cfgGbpCsv sMidRun
      (inputAt (.ok 200) (.error .readTimeout) "10:00:00")) = some 1 := by
  decide

/-- C7, counterexample.  The claim says an `R` keystroke followed by one
successful tick changes neither `threshold` nor `thresholdStep`.  In
threshold-from-open (`-tv`) mode the re-seeding tick re-derives the threshold
from the new opening value: from `threshold = 50`, reset followed by a tick at
price 120 leaves `threshold = 120`. -/
theorem c7_counterexample :
    ({ sBest150 with threshold := 50 } : TickerState).threshold = 50 ∧
    (runStep cfgTv (applyKey { sBest150 with threshold := 50 } 'R' "t2" "d2" "e2")
      (inputAt (.ok 120) (.ok 1) "10:05:00")).1.threshold = 120 ∧
    ((50 : ℚ)) ≠ 120 := by decide

/-- C8, counterexample.  The claim says `currentValue` is
`multiplier × (currentPrice / currentFxRate)` rounded at the configured `-d`
precision.  With `rnd_val = 4`, a first tick at price 1 and fx rate 3 stores
`value = round(1 * round(1/3, 4), 2) = 0.33`, while the claimed formula gives
`round(1 * (1/3), 4) = 0.3333`. -/
theorem c8_counterexample :
    (runStep cfgGbp baseState (inputAt (.ok 1) (.ok 3) "10:00:00")).1.value = 33/100 ∧
    pyRound (cfgGbp.multiplier *
        ((runStep cfgGbp baseState (inputAt (.ok 1) (.ok 3) "10:00:00")).1.stock_price /
          (runStep cfgGbp baseState (inputAt (.ok 1) (.ok 3) "10:00:00")).1.curr_val))
      cfgGbp.rnd_val = 3333/10000 ∧
    ((33 : ℚ)/100) ≠ 3333/10000 := by decide

/-- On a non-first tick the fetch never exits; it changes at most the two
registers `stock_price` and `curr_val` (keeping their old contents for
whichever fetches failed) and the CSV-handle flag (reopened only after both
fetches succeeded, when an output file is configured). -/
theorem fetchPhase_notfirst (cfg : Config) (s : TickerState)
    (primary fx : Except FetchErr ℚ) (hfr : s.first_run = false) :
    ∃ sp cv b, fetchPhase cfg s primary fx =
      .ok { s with stock_price := sp, curr_val := cv, csv_open := b } := by
  cases primary with
  | error e =>
    refine ⟨s.stock_price, s.curr_val, s.csv_open, ?_⟩
    have he : ({ s with stock_price := s.stock_price, curr_val := s.curr_val, csv_open := s.csv_open } : TickerState) = s := rfl
    rw [he]
    simp [fetchPhase, hfr]
  | ok p =>
    by_cases hc : cfg.currency = "usd"
    · by_cases ho : cfg.out_file = ""
      · exact ⟨pyRound p cfg.rnd_val, 1, s.csv_open,
          by simp [fetchPhase, hc, hfr, openCsv, ho]⟩
      · exact ⟨pyRound p cfg.rnd_val, 1, true,
          by simp [fetchPhase, hc, hfr, openCsv, ho]⟩
    · cases fx with
      | error e =>
        exact ⟨pyRound p cfg.rnd_val, s.curr_val, s.csv_open,
          by simp [fetchPhase, hc, hfr]⟩
      | ok f =>
        by_cases ho : cfg.out_file = ""
        · exact ⟨pyRound p cfg.rnd_val, pyRound f cfg.rnd_val, s.csv_open,
            by simp [fetchPhase, hc, hfr, openCsv, ho]⟩
        · exact ⟨pyRound p cfg.rnd_val, pyRound f cfg.rnd_val, true,
            by simp [fetchPhase, hc, hfr, openCsv, ho]⟩

/-- On the first tick of a run, a successful fetch seeds the price registers
and both price baselines and reopens the CSV handle when an output file is
configured, leaving every other field as it was. -/
theorem fetchPhase_first_ok (cfg : Config) (s : TickerState) (p : ℚ)
    (fx : Except FetchErr ℚ) (hfr : s.first_run = true)
    (hfx : cfg.currency = "usd" ∨ ∃ f, fx = .ok f) :
    ∃ cv b, fetchPhase cfg s (.ok p) fx =
      .ok { s with stock_price := pyRound p cfg.rnd_val,
                   best_price := pyRound p cfg.rnd_val,
                   last_best_price := pyRound p cfg.rnd_val,
                   curr_val := cv, csv_open := b } ∧
      (cfg.out_file ≠ "" → b = true) := by
  by_cases hc : cfg.currency = "usd"
  · by_cases ho : cfg.out_file = ""
    · exact ⟨1, s.csv_open, by simp [fetchPhase, hc, hfr, openCsv, ho],
        fun h => absurd ho h⟩
    · exact ⟨1, true, by simp [fetchPhase, hc, hfr, openCsv, ho], fun _ => rfl⟩
  · obtain ⟨f, hf⟩ := hfx.resolve_left hc
    by_cases ho : cfg.out_file = ""
    · exact ⟨pyRound f cfg.rnd_val, s.csv_open,
        by simp [fetchPhase, hc, hfr, hf, openCsv, ho], fun h => absurd ho h⟩
    · exact ⟨pyRound f cfg.rnd_val, true,
        by simp [fetchPhase, hc, hfr, hf, openCsv, ho], fun _ => rfl⟩

/-- With no output file configured, the CSV step writes nothing and cannot
fail. -/
theorem csvStep_no_out (cfg : Config) (s : TickerState) (ho : cfg.out_file = "") :
    csvStep cfg s = .ok (s, false) := by
  simp [csvStep, ho]

/-- With an output file configured and the handle open, the CSV step writes a
record and closes the file (line 157). -/
theorem csvStep_write (cfg : Config) (s : TickerState) (ho : cfg.out_file ≠ "")
    (hop : s.csv_open = true) :
    csvStep cfg s = .ok ({ s with csv_open := false }, true) := by
  simp [csvStep, ho, hop]

/-- With an output file configured but the handle closed — the situation on
every tick whose fetch failed — the write raises an uncaught `ValueError`
and the process dies with exit status 1. -/
theorem csvStep_closed (cfg : Config) (s : TickerState) (ho : cfg.out_file ≠ "")
    (hop : s.csv_open = false) :
    csvStep cfg s = .error 1 := by
  simp [csvStep, ho, hop]

/-- Whatever a returning CSV step did, the state differs at most in the
handle flag. -/
theorem csvStep_state (cfg : Config) (t s3 : TickerState) (w : Bool)
    (h : csvStep cfg t = .ok (s3, w)) :
    ∃ b, s3 = { t with csv_open := b } := by
  by_cases ho : cfg.out_file = ""
  · rw [csvStep_no_out cfg t ho] at h
    simp at h
    exact ⟨t.csv_open, h.1.symm⟩
  · cases hop : t.csv_open with
    | false => rw [csvStep_closed cfg t ho hop] at h; simp at h
    | true =>
      rw [csvStep_write cfg t ho hop] at h
      simp at h
      exact ⟨false, h.1.symm⟩

/-- When the handle is open whenever an output file demands it, the CSV step
cannot die. -/
theorem csvStep_ok_of_open (cfg : Config) (t : TickerState)
    (h : cfg.out_file ≠ "" → t.csv_open = true) :
    ∃ b w, csvStep cfg t = .ok ({ t with csv_open := b }, w) := by
  by_cases ho : cfg.out_file = ""
  · exact ⟨t.csv_open, false, by rw [csvStep_no_out cfg t ho]⟩
  · exact ⟨false, true, csvStep_write cfg t ho (h ho)⟩

/-- A successful fetch (re)opens the CSV handle whenever an output file is
configured (lines 376-380). -/
theorem fetchPhase_ok_csv (cfg : Config) (s : TickerState)
    (primary fx : Except FetchErr ℚ) (s1 : TickerState)
    (hp : ∃ p, primary = .ok p)
    (hfx : cfg.currency = "usd" ∨ ∃ f, fx = .ok f)
    (hf : fetchPhase cfg s primary fx = .ok s1) :
    cfg.out_file ≠ "" → s1.csv_open = true := by
  intro ho
  obtain ⟨p, hp⟩ := hp
  rw [hp] at hf
  by_cases hc : cfg.currency = "usd"
  · cases hfr : s.first_run with
    | false =>
      simp [fetchPhase, hc, hfr, openCsv, ho] at hf
      rw [← hf]
    | true =>
      simp [fetchPhase, hc, hfr, openCsv, ho] at hf
      rw [← hf]
  · obtain ⟨f, hfx⟩ := hfx.resolve_left hc
    rw [hfx] at hf
    cases hfr : s.first_run with
    | false =>
      simp [fetchPhase, hc, hfr, openCsv, ho] at hf
      rw [← hf]
    | true =>
      simp [fetchPhase, hc, hfr, openCsv, ho] at hf
      rw [← hf]

/-- A non-exiting iteration with no pending keystroke is the compute phase of
the fetched state followed by the CSV step, with the `first_run` flag
dropped. -/
theorem runStep_ok (cfg : Config) (s : TickerState) (inp : TickInput)
    (s1 : TickerState) (b w : Bool)
    (hf : fetchPhase cfg s inp.primary inp.fx = .ok s1)
    (hcsv : csvStep cfg (computePhase cfg s1 inp.now).1 =
      .ok ({ (computePhase cfg s1 inp.now).1 with csv_open := b }, w))
    (hkey : inp.key = none) :
    runStep cfg s inp =
      ({ (computePhase cfg s1 inp.now).1 with csv_open := b, first_run := false },
        { (computePhase cfg s1 inp.now).2 with csv_emitted := w }) := by
  simp [runStep, loopIter, hf, hcsv, hkey]

/-- The per-tick output of a non-exiting iteration does not depend on the
keystroke. -/
theorem runStep_out (cfg : Config) (s : TickerState) (inp : TickInput)
    (s1 : TickerState) (b w : Bool)
    (hf : fetchPhase cfg s inp.primary inp.fx = .ok s1)
    (hcsv : csvStep cfg (computePhase cfg s1 inp.now).1 =
      .ok ({ (computePhase cfg s1 inp.now).1 with csv_open := b }, w)) :
    (runStep cfg s inp).2 =
      { (computePhase cfg s1 inp.now).2 with csv_emitted := w } := by
  cases hkey : inp.key <;> simp [runStep, loopIter, hf, hcsv, hkey]

/-! Per-field projection lemmas for the compute-phase components.  Each
records which state fields a phase leaves untouched (or how it moves the
ones it owns), so that properties of a whole iteration compose without
unfolding the phases into one another. -/

@[simp] theorem computeValues_value (cfg : Config) (s : TickerState) :
    (computeValues cfg s).value = tickValue cfg s.stock_price s.curr_val := by
  simp only [computeValues, tickValue]
  split_ifs <;> rfl

@[simp] theorem computeValues_stock_price (cfg : Config) (s : TickerState) :
    (computeValues cfg s).stock_price = s.stock_price := by
  simp only [computeValues]
  split_ifs <;> rfl

@[simp] theorem computeValues_curr_val (cfg : Config) (s : TickerState) :
    (computeValues cfg s).curr_val = s.curr_val := by
  simp only [computeValues]
  split_ifs <;> rfl

@[simp] theorem computeValues_best_price (cfg : Config) (s : TickerState) :
    (computeValues cfg s).best_price = s.best_price := by
  simp only [computeValues]
  split_ifs <;> rfl

@[simp] theorem computeValues_last_best_price (cfg : Config) (s : TickerState) :
    (computeValues cfg s).last_best_price = s.last_best_price := by
  simp only [computeValues]
  split_ifs <;> rfl

@[simp] theorem computeValues_peak_stk_time (cfg : Config) (s : TickerState) :
    (computeValues cfg s).peak_stk_time = s.peak_stk_time := by
  simp only [computeValues]
  split_ifs <;> rfl

@[simp] theorem computeValues_low_fx_time (cfg : Config) (s : TickerState) :
    (computeValues cfg s).low_fx_time = s.low_fx_time := by
  simp only [computeValues]
  split_ifs <;> rfl

@[simp] theorem computeValues_peak_val_time (cfg : Config) (s : TickerState) :
    (computeValues cfg s).peak_val_time = s.peak_val_time := by
  simp only [computeValues]
  split_ifs <;> rfl

@[simp] theorem computeValues_first_run (cfg : Config) (s : TickerState) :
    (computeValues cfg s).first_run = s.first_run := by
  simp only [computeValues]
  split_ifs <;> rfl

@[simp] theorem computeValues_refresh (cfg : Config) (s : TickerState) :
    (computeValues cfg s).refresh = s.refresh := by
  simp only [computeValues]
  split_ifs <;> rfl

@[simp] theorem computeValues_refresh_inc (cfg : Config) (s : TickerState) :
    (computeValues cfg s).refresh_inc = s.refresh_inc := by
  simp only [computeValues]
  split_ifs <;> rfl

@[simp] theorem computeValues_quit_flag (cfg : Config) (s : TickerState) :
    (computeValues cfg s).quit_flag = s.quit_flag := by
  simp only [computeValues]
  split_ifs <;> rfl

@[simp] theorem computeValues_tick_tock (cfg : Config) (s : TickerState) :
    (computeValues cfg s).tick_tock = s.tick_tock := by
  simp only [computeValues]
  split_ifs <;> rfl

@[simp] theorem computeValues_csv_open (cfg : Config) (s : TickerState) :
    (computeValues cfg s).csv_open = s.csv_open := by
  simp only [computeValues]
  split_ifs <;> rfl

@[simp] theorem computeValues_threshold (cfg : Config) (s : TickerState)
    (htv : cfg.args_tv = false) :
    (computeValues cfg s).threshold = s.threshold := by
  simp only [computeValues]
  split_ifs with h1 h2
  · exact absurd h2 (by simp [htv])
  all_goals rfl

@[simp] theorem computeValues_thresh_change (cfg : Config) (s : TickerState)
    (htv : cfg.args_tv = false) :
    (computeValues cfg s).thresh_change = s.thresh_change := by
  simp only [computeValues]
  split_ifs with h1 h2
  · exact absurd h2 (by simp [htv])
  all_goals rfl

@[simp] theorem computeValues_low_fx_notfirst (cfg : Config) (s : TickerState)
    (hfr : s.first_run = false) :
    (computeValues cfg s).low_fx = s.low_fx := by
  simp only [computeValues]
  split_ifs with h1 h2
  · exact absurd h1 (by simp [hfr])
  · exact absurd h1 (by simp [hfr])
  · rfl

@[simp] theorem computeValues_best_value_notfirst (cfg : Config) (s : TickerState)
    (hfr : s.first_run = false) :
    (computeValues cfg s).best_value = s.best_value := by
  simp only [computeValues]
  split_ifs with h1 h2
  · exact absurd h1 (by simp [hfr])
  · exact absurd h1 (by simp [hfr])
  · rfl

@[simp] theorem computeValues_val_delta_notfirst (cfg : Config) (s : TickerState)
    (hfr : s.first_run = false) :
    (computeValues cfg s).val_delta =
      some (pyRound ((tickValue cfg s.stock_price s.curr_val / s.best_value - 1)
        * 100) 2) := by
  simp only [computeValues, tickValue]
  split_ifs with h1 h2
  · exact absurd h1 (by simp [hfr])
  · exact absurd h1 (by simp [hfr])
  · rfl

@[simp] theorem computeValues_low_fx_first (cfg : Config) (s : TickerState)
    (hfr : s.first_run = true) :
    (computeValues cfg s).low_fx = s.curr_val := by
  simp only [computeValues]
  split_ifs <;> rfl

@[simp] theorem computeValues_best_value_first (cfg : Config) (s : TickerState)
    (hfr : s.first_run = true) :
    (computeValues cfg s).best_value = tickValue cfg s.stock_price s.curr_val := by
  simp only [computeValues, tickValue]
  split_ifs <;> rfl

@[simp] theorem updateBests_stock_price (s : TickerState) (now : String) :
    (updateBests s now).stock_price = s.stock_price := by
  simp only [updateBests]
  split_ifs <;> rfl

@[simp] theorem updateBests_curr_val (s : TickerState) (now : String) :
    (updateBests s now).curr_val = s.curr_val := by
  simp only [updateBests]
  split_ifs <;> rfl

@[simp] theorem updateBests_best_value (s : TickerState) (now : String) :
    (updateBests s now).best_value = s.best_value := by
  simp only [updateBests]
  split_ifs <;> rfl

@[simp] theorem updateBests_value (s : TickerState) (now : String) :
    (updateBests s now).value = s.value := by
  simp only [updateBests]
  split_ifs <;> rfl

@[simp] theorem updateBests_peak_val_time (s : TickerState) (now : String) :
    (updateBests s now).peak_val_time = s.peak_val_time := by
  simp only [updateBests]
  split_ifs <;> rfl

@[simp] theorem updateBests_first_run (s : TickerState) (now : String) :
    (updateBests s now).first_run = s.first_run := by
  simp only [updateBests]
  split_ifs <;> rfl

@[simp] theorem updateBests_threshold (s : TickerState) (now : String) :
    (updateBests s now).threshold = s.threshold := by
  simp only [updateBests]
  split_ifs <;> rfl

@[simp] theorem updateBests_thresh_change (s : TickerState) (now : String) :
    (updateBests s now).thresh_change = s.thresh_change := by
  simp only [updateBests]
  split_ifs <;> rfl

@[simp] theorem updateBests_refresh (s : TickerState) (now : String) :
    (updateBests s now).refresh = s.refresh := by
  simp only [updateBests]
  split_ifs <;> rfl

@[simp] theorem updateBests_refresh_inc (s : TickerState) (now : String) :
    (updateBests s now).refresh_inc = s.refresh_inc := by
  simp only [updateBests]
  split_ifs <;> rfl

@[simp] theorem updateBests_quit_flag (s : TickerState) (now : String) :
    (updateBests s now).quit_flag = s.quit_flag := by
  simp only [updateBests]
  split_ifs <;> rfl

@[simp] theorem updateBests_val_delta (s : TickerState) (now : String) :
    (updateBests s now).val_delta = s.val_delta := by
  simp only [updateBests]
  split_ifs <;> rfl

@[simp] theorem updateBests_tick_tock (s : TickerState) (now : String) :
    (updateBests s now).tick_tock = s.tick_tock := by
  simp only [updateBests]
  split_ifs <;> rfl

@[simp] theorem updateBests_csv_open (s : TickerState) (now : String) :
    (updateBests s now).csv_open = s.csv_open := by
  simp only [updateBests]
  split_ifs <;> rfl

theorem updateBests_best_price_mono (s : TickerState) (now : String) :
    s.best_price ≤ (updateBests s now).best_price := by
  simp only [updateBests]
  split_ifs with h1 h2 h3 <;> first | exact le_refl _ | exact le_of_lt h1

theorem updateBests_low_fx_mono (s : TickerState) (now : String) :
    (updateBests s now).low_fx ≤ s.low_fx := by
  simp only [updateBests]
  split_ifs with h1 h2 h3 <;>
    first | exact le_refl _ | exact le_of_lt h2 | exact le_of_lt h3

theorem updateBests_best_price_of_le (s : TickerState) (now : String)
    (h : s.stock_price ≤ s.best_price) :
    (updateBests s now).best_price = s.best_price := by
  simp only [updateBests]
  rw [if_neg (not_lt.mpr h)]
  split_ifs <;> rfl

theorem updateBests_peak_stk_time_of_le (s : TickerState) (now : String)
    (h : s.stock_price ≤ s.best_price) :
    (updateBests s now).peak_stk_time = s.peak_stk_time := by
  simp only [updateBests]
  rw [if_neg (not_lt.mpr h)]
  split_ifs <;> rfl

theorem updateBests_low_fx_of_le (s : TickerState) (now : String)
    (h : s.low_fx ≤ s.curr_val) :
    (updateBests s now).low_fx = s.low_fx := by
  simp only [updateBests]
  split_ifs with h1 h2 h3 <;>
    first
      | rfl
      | exact absurd h2 (by simp [not_lt.mpr h])
      | exact absurd h3 (by simp [not_lt.mpr h])

theorem updateBests_low_fx_time_of_le (s : TickerState) (now : String)
    (h : s.low_fx ≤ s.curr_val) :
    (updateBests s now).low_fx_time = s.low_fx_time := by
  simp only [updateBests]
  split_ifs with h1 h2 h3 <;>
    first
      | rfl
      | exact absurd h2 (by simp [not_lt.mpr h])
      | exact absurd h3 (by simp [not_lt.mpr h])

@[simp] theorem priceLineStep_stock_price (cfg : Config) (s : TickerState) :
    (priceLineStep cfg s).1.stock_price = s.stock_price := by
  simp only [priceLineStep]
  split_ifs <;> rfl

@[simp] theorem priceLineStep_curr_val (cfg : Config) (s : TickerState) :
    (priceLineStep cfg s).1.curr_val = s.curr_val := by
  simp only [priceLineStep]
  split_ifs <;> rfl

@[simp] theorem priceLineStep_best_price (cfg : Config) (s : TickerState) :
    (priceLineStep cfg s).1.best_price = s.best_price := by
  simp only [priceLineStep]
  split_ifs <;> rfl

@[simp] theorem priceLineStep_low_fx (cfg : Config) (s : TickerState) :
    (priceLineStep cfg s).1.low_fx = s.low_fx := by
  simp only [priceLineStep]
  split_ifs <;> rfl

@[simp] theorem priceLineStep_best_value (cfg : Config) (s : TickerState) :
    (priceLineStep cfg s).1.best_value = s.best_value := by
  simp only [priceLineStep]
  split_ifs <;> rfl

@[simp] theorem priceLineStep_value (cfg : Config) (s : TickerState) :
    (priceLineStep cfg s).1.value = s.value := by
  simp only [priceLineStep]
  split_ifs <;> rfl

@[simp] theorem priceLineStep_peak_val_time (cfg : Config) (s : TickerState) :
    (priceLineStep cfg s).1.peak_val_time = s.peak_val_time := by
  simp only [priceLineStep]
  split_ifs <;> rfl

@[simp] theorem priceLineStep_peak_stk_time (cfg : Config) (s : TickerState) :
    (priceLineStep cfg s).1.peak_stk_time = s.peak_stk_time := by
  simp only [priceLineStep]
  split_ifs <;> rfl

@[simp] theorem priceLineStep_low_fx_time (cfg : Config) (s : TickerState) :
    (priceLineStep cfg s).1.low_fx_time = s.low_fx_time := by
  simp only [priceLineStep]
  split_ifs <;> rfl

@[simp] theorem priceLineStep_first_run (cfg : Config) (s : TickerState) :
    (priceLineStep cfg s).1.first_run = s.first_run := by
  simp only [priceLineStep]
  split_ifs <;> rfl

@[simp] theorem priceLineStep_threshold (cfg : Config) (s : TickerState) :
    (priceLineStep cfg s).1.threshold = s.threshold := by
  simp only [priceLineStep]
  split_ifs <;> rfl

@[simp] theorem priceLineStep_thresh_change (cfg : Config) (s : TickerState) :
    (priceLineStep cfg s).1.thresh_change = s.thresh_change := by
  simp only [priceLineStep]
  split_ifs <;> rfl

@[simp] theorem priceLineStep_refresh (cfg : Config) (s : TickerState) :
    (priceLineStep cfg s).1.refresh = s.refresh := by
  simp only [priceLineStep]
  split_ifs <;> rfl

@[simp] theorem priceLineStep_refresh_inc (cfg : Config) (s : TickerState) :
    (priceLineStep cfg s).1.refresh_inc = s.refresh_inc := by
  simp only [priceLineStep]
  split_ifs <;> rfl

@[simp] theorem priceLineStep_quit_flag (cfg : Config) (s : TickerState) :
    (priceLineStep cfg s).1.quit_flag = s.quit_flag := by
  simp only [priceLineStep]
  split_ifs <;> rfl

@[simp] theorem priceLineStep_val_delta (cfg : Config) (s : TickerState) :
    (priceLineStep cfg s).1.val_delta = s.val_delta := by
  simp only [priceLineStep]
  split_ifs <;> rfl

@[simp] theorem priceLineStep_csv_open (cfg : Config) (s : TickerState) :
    (priceLineStep cfg s).1.csv_open = s.csv_open := by
  simp only [priceLineStep]
  split_ifs <;> rfl

@[simp] theorem priceLineStep_tick_tock (cfg : Config) (s : TickerState) :
    (priceLineStep cfg s).1.tick_tock = s.tick_tock := by
  simp only [priceLineStep]
  split_ifs <;> rfl

@[simp] theorem bestLineStep_stock_price (cfg : Config) (s : TickerState)
    (now : String) : (bestLineStep cfg s now).1.stock_price = s.stock_price := by
  simp only [bestLineStep]
  split_ifs <;> rfl

@[simp] theorem bestLineStep_curr_val (cfg : Config) (s : TickerState)
    (now : String) : (bestLineStep cfg s now).1.curr_val = s.curr_val := by
  simp only [bestLineStep]
  split_ifs <;> rfl

@[simp] theorem bestLineStep_best_price (cfg : Config) (s : TickerState)
    (now : String) : (bestLineStep cfg s now).1.best_price = s.best_price := by
  simp only [bestLineStep]
  split_ifs <;> rfl

@[simp] theorem bestLineStep_low_fx (cfg : Config) (s : TickerState)
    (now : String) : (bestLineStep cfg s now).1.low_fx = s.low_fx := by
  simp only [bestLineStep]
  split_ifs <;> rfl

@[simp] theorem bestLineStep_peak_stk_time (cfg : Config) (s : TickerState)
    (now : String) : (bestLineStep cfg s now).1.peak_stk_time = s.peak_stk_time := by
  simp only [bestLineStep]
  split_ifs <;> rfl

@[simp] theorem bestLineStep_low_fx_time (cfg : Config) (s : TickerState)
    (now : String) : (bestLineStep cfg s now).1.low_fx_time = s.low_fx_time := by
  simp only [bestLineStep]
  split_ifs <;> rfl

@[simp] theorem bestLineStep_first_run (cfg : Config) (s : TickerState)
    (now : String) : (bestLineStep cfg s now).1.first_run = s.first_run := by
  simp only [bestLineStep]
  split_ifs <;> rfl

@[simp] theorem bestLineStep_threshold (cfg : Config) (s : TickerState)
    (now : String) : (bestLineStep cfg s now).1.threshold = s.threshold := by
  simp only [bestLineStep]
  split_ifs <;> rfl

@[simp] theorem bestLineStep_thresh_change (cfg : Config) (s : TickerState)
    (now : String) : (bestLineStep cfg s now).1.thresh_change = s.thresh_change := by
  simp only [bestLineStep]
  split_ifs <;> rfl

@[simp] theorem bestLineStep_refresh (cfg : Config) (s : TickerState)
    (now : String) : (bestLineStep cfg s now).1.refresh = s.refresh := by
  simp only [bestLineStep]
  split_ifs <;> rfl

@[simp] theorem bestLineStep_refresh_inc (cfg : Config) (s : TickerState)
    (now : String) : (bestLineStep cfg s now).1.refresh_inc = s.refresh_inc := by
  simp only [bestLineStep]
  split_ifs <;> rfl

@[simp] theorem bestLineStep_quit_flag (cfg : Config) (s : TickerState)
    (now : String) : (bestLineStep cfg s now).1.quit_flag = s.quit_flag := by
  simp only [bestLineStep]
  split_ifs <;> rfl

@[simp] theorem bestLineStep_val_delta (cfg : Config) (s : TickerState)
    (now : String) : (bestLineStep cfg s now).1.val_delta = s.val_delta := by
  simp only [bestLineStep]
  split_ifs <;> rfl

@[simp] theorem bestLineStep_value (cfg : Config) (s : TickerState)
    (now : String) : (bestLineStep cfg s now).1.value = s.value := by
  simp only [bestLineStep]
  split_ifs <;> rfl

@[simp] theorem bestLineStep_tick_tock (cfg : Config) (s : TickerState)
    (now : String) : (bestLineStep cfg s now).1.tick_tock = s.tick_tock := by
  simp only [bestLineStep]
  split_ifs <;> rfl

@[simp] theorem bestLineStep_csv_open (cfg : Config) (s : TickerState)
    (now : String) : (bestLineStep cfg s now).1.csv_open = s.csv_open := by
  simp only [bestLineStep]
  split_ifs <;> rfl

theorem bestLineStep_best_value_mono (cfg : Config) (s : TickerState)
    (now : String) (hfr : s.first_run = false) :
    s.best_value ≤ (bestLineStep cfg s now).1.best_value := by
  simp only [bestLineStep]
  split_ifs with hb h0 h1 h2
  · exact absurd h0 (by simp [hfr])
  · exact le_of_lt h1
  · exact le_refl _
  · exact le_refl _
  · exact le_refl _

theorem bestLineStep_best_value_of_eq (cfg : Config) (s : TickerState)
    (now : String) (h : s.best_value = s.value) :
    (bestLineStep cfg s now).1.best_value = s.best_value := by
  simp only [bestLineStep]
  split_ifs <;> first | exact h.symm | rfl

theorem bestLineStep_best_value_of_le (cfg : Config) (s : TickerState)
    (now : String) (hfr : s.first_run = false) (h : s.value ≤ s.best_value) :
    (bestLineStep cfg s now).1.best_value = s.best_value := by
  simp only [bestLineStep]
  split_ifs with hb h0 h1 h2
  · exact absurd h0 (by simp [hfr])
  · exact absurd h1 (not_lt.mpr h)
  · rfl
  · rfl
  · rfl

theorem bestLineStep_peak_val_time_of_le (cfg : Config) (s : TickerState)
    (now : String) (h : s.value ≤ s.best_value) :
    (bestLineStep cfg s now).1.peak_val_time = s.peak_val_time := by
  simp only [bestLineStep]
  split_ifs with hb h0 h1 h2 <;>
    first
      | exact absurd h1 (not_lt.mpr h)
      | rfl

theorem bestLineStep_best_value_brief (cfg : Config) (s : TickerState)
    (now : String) (hb : cfg.args_b = false) :
    (bestLineStep cfg s now).1.best_value = s.best_value := by
  simp [bestLineStep, hb]

theorem bestLineStep_peak_val_time_brief (cfg : Config) (s : TickerState)
    (now : String) (hb : cfg.args_b = false) :
    (bestLineStep cfg s now).1.peak_val_time = s.peak_val_time := by
  simp [bestLineStep, hb]

/-- The exact-tie branch of lines 530-532: nothing moves, the line is
highlighted. -/
theorem bestLineStep_matched (cfg : Config) (s : TickerState) (now : String)
    (hb : cfg.args_b = true) (hfr : s.first_run = false)
    (h : s.value = s.best_value) :
    bestLineStep cfg s now = (s, .matched) := by
  simp only [bestLineStep]
  rw [if_pos hb, if_neg (by simp [hfr] : ¬s.first_run = true),
      if_neg (not_lt.mpr (le_of_eq h)), if_pos h]

/-- The strict-improvement branch of lines 523-528. -/
theorem bestLineStep_improved (cfg : Config) (s : TickerState) (now : String)
    (hb : cfg.args_b = true) (hfr : s.first_run = false)
    (h : s.best_value < s.value) :
    bestLineStep cfg s now =
      ({ s with best_value := s.value, peak_val_time := now }, .improved) := by
  simp only [bestLineStep]
  rw [if_pos hb, if_neg (by simp [hfr] : ¬s.first_run = true), if_pos h]

/-- The fall-through branch: a strictly lower value moves nothing and renders
the plain line. -/
theorem bestLineStep_plain (cfg : Config) (s : TickerState) (now : String)
    (hb : cfg.args_b = true) (hfr : s.first_run = false)
    (h : s.value < s.best_value) :
    bestLineStep cfg s now = (s, .plain) := by
  simp only [bestLineStep]
  rw [if_pos hb, if_neg (by simp [hfr] : ¬s.first_run = true),
      if_neg (not_lt.mpr (le_of_lt h)), if_neg (ne_of_lt h)]

/-- The compute phase never touches the CSV handle. -/
@[simp] theorem computePhase_csv_open (cfg : Config) (t : TickerState) (now : String) :
    (computePhase cfg t now).1.csv_open = t.csv_open := by
  simp only [computePhase]
  simp

/-- Compute-phase projections that hold on every tick. -/
@[simp] theorem computePhase_value (cfg : Config) (t : TickerState) (now : String) :
    (computePhase cfg t now).1.value = tickValue cfg t.stock_price t.curr_val := by
  simp only [computePhase]
  simp

@[simp] theorem computePhase_stock_price (cfg : Config) (t : TickerState) (now : String) :
    (computePhase cfg t now).1.stock_price = t.stock_price := by
  simp only [computePhase]
  simp

@[simp] theorem computePhase_curr_val (cfg : Config) (t : TickerState) (now : String) :
    (computePhase cfg t now).1.curr_val = t.curr_val := by
  simp only [computePhase]
  simp

@[simp] theorem computePhase_refresh (cfg : Config) (t : TickerState) (now : String) :
    (computePhase cfg t now).1.refresh = t.refresh := by
  simp only [computePhase]
  simp

@[simp] theorem computePhase_refresh_inc (cfg : Config) (t : TickerState) (now : String) :
    (computePhase cfg t now).1.refresh_inc = t.refresh_inc := by
  simp only [computePhase]
  simp

@[simp] theorem computePhase_quit_flag (cfg : Config) (t : TickerState) (now : String) :
    (computePhase cfg t now).1.quit_flag = t.quit_flag := by
  simp only [computePhase]
  simp

theorem computePhase_threshold (cfg : Config) (t : TickerState) (now : String)
    (htv : cfg.args_tv = false) :
    (computePhase cfg t now).1.threshold = t.threshold := by
  simp only [computePhase]
  simp [htv]

theorem computePhase_thresh_change (cfg : Config) (t : TickerState) (now : String)
    (htv : cfg.args_tv = false) :
    (computePhase cfg t now).1.thresh_change = t.thresh_change := by
  simp only [computePhase]
  simp [htv]

/-- In brief output mode the best-value pair never moves on a non-first tick. -/
theorem computePhase_best_value_brief (cfg : Config) (t : TickerState) (now : String)
    (hb : cfg.args_b = false) (hfr : t.first_run = false) :
    (computePhase cfg t now).1.best_value = t.best_value := by
  simp only [computePhase]
  rw [bestLineStep_best_value_brief _ _ _ hb]
  simp [hfr]

theorem computePhase_peak_val_time_brief (cfg : Config) (t : TickerState) (now : String)
    (hb : cfg.args_b = false) :
    (computePhase cfg t now).1.peak_val_time = t.peak_val_time := by
  simp only [computePhase]
  rw [bestLineStep_peak_val_time_brief _ _ _ hb]
  simp

/-- On a non-first tick the value delta is computed against the pre-tick
best value. -/
theorem computePhase_val_delta_notfirst (cfg : Config) (t : TickerState) (now : String)
    (hfr : t.first_run = false) :
    (computePhase cfg t now).1.val_delta =
      some (pyRound ((tickValue cfg t.stock_price t.curr_val / t.best_value - 1)
        * 100) 2) := by
  simp only [computePhase]
  simp [hfr]

/-- An iteration entered with `first_run` set prints no VALUE line and so
reports no alert classification. -/
theorem computePhase_alert_first (cfg : Config) (t : TickerState) (now : String)
    (hfr : t.first_run = true) :
    (computePhase cfg t now).2.alert = none := by
  simp only [computePhase]
  simp [valueLineAlert, hfr]

/-- BEST-line outcome of an exact tie (full output, non-first tick): neither
`best_value` nor its timestamp moves, and the line renders `matched`. -/
theorem computePhase_tie (cfg : Config) (t : TickerState) (now : String)
    (hb : cfg.args_b = true) (hfr : t.first_run = false)
    (hv : tickValue cfg t.stock_price t.curr_val = t.best_value) :
    (computePhase cfg t now).1.best_value = t.best_value ∧
    (computePhase cfg t now).1.peak_val_time = t.peak_val_time ∧
    (computePhase cfg t now).2.bestLine = .matched := by
  have hbl := bestLineStep_matched cfg
    (priceLineStep cfg { updateBests (computeValues cfg t) now with
      tick_tock := !(updateBests (computeValues cfg t) now).tick_tock }).1 now hb
    (by simp [hfr]) (by simp [hfr, hv])
  refine ⟨?_, ?_, ?_⟩ <;>
    · simp only [computePhase]
      rw [hbl]
      try simp [hfr]

/-- BEST-line outcome of a strict improvement: `best_value` takes the new
value, the timestamp resets to the tick time, the line renders `improved`. -/
theorem computePhase_improve (cfg : Config) (t : TickerState) (now : String)
    (hb : cfg.args_b = true) (hfr : t.first_run = false)
    (hv : t.best_value < tickValue cfg t.stock_price t.curr_val) :
    (computePhase cfg t now).1.best_value = tickValue cfg t.stock_price t.curr_val ∧
    (computePhase cfg t now).1.peak_val_time = now ∧
    (computePhase cfg t now).2.bestLine = .improved := by
  have hbl := bestLineStep_improved cfg
    (priceLineStep cfg { updateBests (computeValues cfg t) now with
      tick_tock := !(updateBests (computeValues cfg t) now).tick_tock }).1 now hb
    (by simp [hfr]) (by simp [hfr, hv])
  refine ⟨?_, ?_, ?_⟩ <;>
    · simp only [computePhase]
      rw [hbl]
      try simp [hfr]

/-- BEST-line outcome of a strictly lower value: neither `best_value` nor its
timestamp moves, and the line renders plain. -/
theorem computePhase_decline (cfg : Config) (t : TickerState) (now : String)
    (hb : cfg.args_b = true) (hfr : t.first_run = false)
    (hv : tickValue cfg t.stock_price t.curr_val < t.best_value) :
    (computePhase cfg t now).1.best_value = t.best_value ∧
    (computePhase cfg t now).1.peak_val_time = t.peak_val_time ∧
    (computePhase cfg t now).2.bestLine = .plain := by
  have hbl := bestLineStep_plain cfg
    (priceLineStep cfg { updateBests (computeValues cfg t) now with
      tick_tock := !(updateBests (computeValues cfg t) now).tick_tock }).1 now hb
    (by simp [hfr]) (by simp [hfr, hv])
  refine ⟨?_, ?_, ?_⟩ <;>
    · simp only [computePhase]
      rw [hbl]
      try simp [hfr]

/-- On a non-first tick the compute phase moves `best_price` only up,
`low_fx` only down and `best_value` only up. -/
theorem computePhase_mono (cfg : Config) (t : TickerState) (now : String)
    (hfr : t.first_run = false) :
    t.best_price ≤ (computePhase cfg t now).1.best_price ∧
    (computePhase cfg t now).1.low_fx ≤ t.low_fx ∧
    t.best_value ≤ (computePhase cfg t now).1.best_value := by
  simp only [computePhase]
  refine ⟨?_, ?_, ?_⟩
  · exact le_trans (le_of_eq (by simp)) (le_trans (updateBests_best_price_mono
      (computeValues cfg t) now) (le_of_eq (by simp)))
  · exact le_trans (le_of_eq (by simp)) (le_trans (updateBests_low_fx_mono
      (computeValues cfg t) now) (le_of_eq (by simp [hfr])))
  · exact le_trans (le_of_eq (by simp [hfr])) (bestLineStep_best_value_mono cfg
      (priceLineStep cfg { updateBests (computeValues cfg t) now with
        tick_tock := !(updateBests (computeValues cfg t) now).tick_tock }).1
      now (by simp [hfr]))

/-- On a first tick whose price baseline was seeded by the fetch, the compute
phase leaves the baselines exactly equal to the fresh observation. -/
theorem computePhase_first_seed (cfg : Config) (t : TickerState) (now : String)
    (hfr : t.first_run = true) (hbp : t.best_price = t.stock_price) :
    (computePhase cfg t now).1.best_price = (computePhase cfg t now).1.stock_price ∧
    (computePhase cfg t now).1.low_fx = (computePhase cfg t now).1.curr_val ∧
    (computePhase cfg t now).1.best_value = (computePhase cfg t now).1.value := by
  have hle1 : (computeValues cfg t).stock_price ≤ (computeValues cfg t).best_price := by
    simp [hbp]
  have hle2 : (computeValues cfg t).low_fx ≤ (computeValues cfg t).curr_val := by
    simp [hfr]
  have hbv := bestLineStep_best_value_of_eq cfg
    (priceLineStep cfg { updateBests (computeValues cfg t) now with
      tick_tock := !(updateBests (computeValues cfg t) now).tick_tock }).1 now
    (by simp [hfr])
  simp only [computePhase]
  refine ⟨?_, ?_, ?_⟩
  · simp only [bestLineStep_best_price, priceLineStep_best_price,
      bestLineStep_stock_price, priceLineStep_stock_price]
    simp
    rw [updateBests_best_price_of_le _ _ hle1]
    simp [hbp]
  · simp only [bestLineStep_low_fx, priceLineStep_low_fx,
      bestLineStep_curr_val, priceLineStep_curr_val]
    simp
    rw [updateBests_low_fx_of_le _ _ hle2]
    simp [hfr]
  · rw [hbv]
    simp [hfr]

/-- An iteration whose fetch returned normally, with the handle reopened
whenever an output file demands it, does not exit the process. -/
theorem loopIter_isOk_of_fetch (cfg : Config) (s : TickerState) (inp : TickInput)
    (s1 : TickerState) (hf : fetchPhase cfg s inp.primary inp.fx = .ok s1)
    (hopen : cfg.out_file ≠ "" → s1.csv_open = true) :
    (loopIter cfg s inp).isOk = true := by
  obtain ⟨b, w, hcsv⟩ := csvStep_ok_of_open cfg (computePhase cfg s1 inp.now).1
    (fun ho => by rw [computePhase_csv_open]; exact hopen ho)
  cases hkey : inp.key <;>
    simp [loopIter, hf, hcsv, hkey, Except.isOk, Except.toBool]

/-- A successful fetch and no keystroke make the iteration return normally:
the post-compute state with its handle flag updated by the CSV step, and the
compute-phase output carrying the write flag. -/
theorem runStep_success (cfg : Config) (s : TickerState) (inp : TickInput)
    (s1 : TickerState) (hf : fetchPhase cfg s inp.primary inp.fx = .ok s1)
    (hopen : cfg.out_file ≠ "" → s1.csv_open = true) (hkey : inp.key = none) :
    ∃ b w, runStep cfg s inp =
      ({ (computePhase cfg s1 inp.now).1 with csv_open := b, first_run := false },
        { (computePhase cfg s1 inp.now).2 with csv_emitted := w }) := by
  obtain ⟨b, w, hcsv⟩ := csvStep_ok_of_open cfg (computePhase cfg s1 inp.now).1
    (fun ho => by rw [computePhase_csv_open]; exact hopen ho)
  exact ⟨b, w, runStep_ok cfg s inp s1 b w hf hcsv hkey⟩

/-- Any normally returning keystroke-free iteration from a non-first state is
a fetch, the compute phase, and a handle-flag update. -/
theorem loopIter_ok_state (cfg : Config) (s : TickerState) (inp : TickInput)
    (sf : TickerState) (out : TickOutput) (hfr : s.first_run = false)
    (hkey : inp.key = none) (hok : loopIter cfg s inp = .ok (sf, out)) :
    ∃ sp cv b1 b2, sf =
      { (computePhase cfg { s with stock_price := sp, curr_val := cv, csv_open := b1 } inp.now).1 with csv_open := b2, first_run := false } := by
  obtain ⟨sp, cv, b1, hf⟩ := fetchPhase_notfirst cfg s inp.primary inp.fx hfr
  cases hcs : csvStep cfg (computePhase cfg { s with stock_price := sp, curr_val := cv, csv_open := b1 } inp.now).1 with
  | error c =>
    simp [loopIter, hf, hcs] at hok
  | ok pr =>
    obtain ⟨s3, w⟩ := pr
    obtain ⟨b2, hb2⟩ := csvStep_state cfg _ s3 w hcs
    refine ⟨sp, cv, b1, b2, ?_⟩
    simp [loopIter, hf, hcs, hkey] at hok
    rw [← hok.1, hb2]

/-- In brief output mode every normally returning keystroke-free iteration
preserves the best-value pair. -/
theorem loopIter_brief_preserve (cfg : Config) (hb : cfg.args_b = false)
    (s : TickerState) (inp : TickInput) (sf : TickerState) (out : TickOutput)
    (hfr : s.first_run = false) (hkey : inp.key = none)
    (hok : loopIter cfg s inp = .ok (sf, out)) :
    sf.best_value = s.best_value ∧ sf.peak_val_time = s.peak_val_time ∧
    sf.first_run = false ∧ sf.quit_flag = s.quit_flag := by
  obtain ⟨sp, cv, b1, b2, hs⟩ := loopIter_ok_state cfg s inp sf out hfr hkey hok
  subst hs
  refine ⟨?_, ?_, rfl, by simp⟩
  · have h := computePhase_best_value_brief cfg
      { s with stock_price := sp, curr_val := cv, csv_open := b1 } inp.now hb
      (by simp [hfr])
    simpa using h
  · have h := computePhase_peak_val_time_brief cfg
      { s with stock_price := sp, curr_val := cv, csv_open := b1 } inp.now hb
    simpa using h

/-- A first-run iteration never reports a VALUE-line alert: either it exits,
or its compute phase ran on a state still carrying `first_run`. -/
theorem runStep_alert_first (cfg : Config) (s : TickerState) (inp : TickInput)
    (hfr : s.first_run = true) : (runStep cfg s inp).2.alert = none := by
  cases hp : inp.primary with
  | error e => simp [runStep, loopIter, fetchPhase, hp, hfr, noOutput]
  | ok p =>
    by_cases hc : cfg.currency = "usd"
    · obtain ⟨cv, b1, hf, hb1⟩ := fetchPhase_first_ok cfg s p inp.fx hfr (Or.inl hc)
      rw [← hp] at hf
      have hA := computePhase_alert_first cfg
        { s with stock_price := pyRound p cfg.rnd_val,
                 best_price := pyRound p cfg.rnd_val,
                 last_best_price := pyRound p cfg.rnd_val,
                 curr_val := cv, csv_open := b1 } inp.now (by simp [hfr])
      obtain ⟨b, w, hcsv⟩ := csvStep_ok_of_open cfg
        (computePhase cfg
          { s with stock_price := pyRound p cfg.rnd_val,
                   best_price := pyRound p cfg.rnd_val,
                   last_best_price := pyRound p cfg.rnd_val,
                   curr_val := cv, csv_open := b1 } inp.now).1
        (fun ho => by rw [computePhase_csv_open]; simp [hb1 ho])
      rw [runStep_out cfg s inp _ b w hf hcsv]
      simpa using hA
    · cases hfx : inp.fx with
      | error e =>
        simp [runStep, loopIter, fetchPhase, hp, hc, hfx, hfr, noOutput]
      | ok f =>
        obtain ⟨cv, b1, hf, hb1⟩ :=
          fetchPhase_first_ok cfg s p inp.fx hfr (Or.inr ⟨f, hfx⟩)
        rw [← hp] at hf
        have hA := computePhase_alert_first cfg
          { s with stock_price := pyRound p cfg.rnd_val,
                   best_price := pyRound p cfg.rnd_val,
                   last_best_price := pyRound p cfg.rnd_val,
                   curr_val := cv, csv_open := b1 } inp.now (by simp [hfr])
        obtain ⟨b, w, hcsv⟩ := csvStep_ok_of_open cfg
          (computePhase cfg
            { s with stock_price := pyRound p cfg.rnd_val,
                     best_price := pyRound p cfg.rnd_val,
                     last_best_price := pyRound p cfg.rnd_val,
                     curr_val := cv, csv_open := b1 } inp.now).1
          (fun ho => by rw [computePhase_csv_open]; simp [hb1 ho])
        rw [runStep_out cfg s inp _ b w hf hcsv]
        simpa using hA

/-- C4.  Over any successful tick without a reset: when it is not the first
tick, `best_price` does not decrease, `low_fx` does not increase and
`best_value` does not decrease; when it is the first tick (of a run or after
a reset), the baselines come out exactly equal to the freshly fetched
observation — `best_price = stock_price`, `low_fx = curr_val`,
`best_value = value` — rather than to any zero default. -/
theorem c4_monotone_baselines (cfg : Config) (s : TickerState) (inp : TickInput)
    (hkey : inp.key = none)
    (hp : ∃ p, inp.primary = .ok p)
    (hfx : cfg.currency = "usd" ∨ ∃ f, inp.fx = .ok f) :
    (loopIter cfg s inp).isOk = true ∧
    (s.first_run = false →
      s.best_price ≤ (runStep cfg s inp).1.best_price ∧
      (runStep cfg s inp).1.low_fx ≤ s.low_fx ∧
      s.best_value ≤ (runStep cfg s inp).1.best_value) ∧
    (s.first_run = true →
      (runStep cfg s inp).1.best_price = (runStep cfg s inp).1.stock_price ∧
      (runStep cfg s inp).1.low_fx = (runStep cfg s inp).1.curr_val ∧
      (runStep cfg s inp).1.best_value = (runStep cfg s inp).1.value) := by
  obtain ⟨p, hp⟩ := hp
  cases hfr : s.first_run with
  | false =>
    obtain ⟨sp, cv, b1, hf⟩ := fetchPhase_notfirst cfg s inp.primary inp.fx hfr
    have hopen := fetchPhase_ok_csv cfg s inp.primary inp.fx _ ⟨p, hp⟩ hfx hf
    obtain ⟨b, w, hrs⟩ := runStep_success cfg s inp _ hf hopen hkey
    refine ⟨loopIter_isOk_of_fetch cfg s inp _ hf hopen, fun _ => ?_, by simp [hfr]⟩
    rw [hrs]
    have h := computePhase_mono cfg
      { s with stock_price := sp, curr_val := cv, csv_open := b1 } inp.now hfr
    exact ⟨by simpa using h.1, by simpa using h.2.1, by simpa using h.2.2⟩
  | true =>
    obtain ⟨cv, b1, hf, hb1⟩ := fetchPhase_first_ok cfg s p inp.fx hfr (by
      rcases hfx with hc | ⟨f, hf⟩
      · exact Or.inl hc
      · exact Or.inr ⟨f, hf⟩)
    rw [← hp] at hf
    have hopen := fetchPhase_ok_csv cfg s inp.primary inp.fx _ ⟨p, hp⟩ hfx hf
    obtain ⟨b, w, hrs⟩ := runStep_success cfg s inp _ hf hopen hkey
    refine ⟨loopIter_isOk_of_fetch cfg s inp _ hf hopen, by simp [hfr], fun _ => ?_⟩
    rw [hrs]
    have h := computePhase_first_seed cfg
      { s with stock_price := pyRound p cfg.rnd_val,
               best_price := pyRound p cfg.rnd_val,
               last_best_price := pyRound p cfg.rnd_val, curr_val := cv,
               csv_open := b1 }
      inp.now hfr rfl
    exact ⟨by simpa using h.1, by simpa using h.2.1, by simpa using h.2.2⟩

/-- C4, witness: a second tick at price 105 over bests seeded at 100 keeps
all three baselines monotone, and a first tick at price 100 seeds them from
the fetched data. -/
theorem c4_monotone_baselines_witness :
    sTie.first_run = false ∧
    sTie.best_price ≤
      (runStep cfgUsd sTie (inputAt (.ok 105) (.ok 1) "11:00:00")).1.best_price ∧
    (runStep cfgUsd sTie (inputAt (.ok 105) (.ok 1) "11:00:00")).1.low_fx ≤ sTie.low_fx ∧
    sTie.best_value ≤
      (runStep cfgUsd sTie (inputAt (.ok 105) (.ok 1) "11:00:00")).1.best_value ∧
    baseState.first_run = true ∧
    (runStep cfgUsd baseState (inputAt (.ok 100) (.ok 1) "10:00:00")).1.best_price =
      (runStep cfgUsd baseState (inputAt (.ok 100) (.ok 1) "10:00:00")).1.stock_price := by
  have h2 := (c4_monotone_baselines cfgUsd sTie (inputAt (.ok 105) (.ok 1) "11:00:00")
    rfl ⟨105, rfl⟩ (Or.inl rfl)).2.1 rfl
  have h1 := (c4_monotone_baselines cfgUsd baseState (inputAt (.ok 100) (.ok 1) "10:00:00")
    rfl ⟨100, rfl⟩ (Or.inl rfl)).2.2 rfl
  exact ⟨rfl, h2.1, h2.2.1, h2.2.2, rfl, h1.1⟩

/-- C8, amended.  On every successful tick, `value` equals
`round(multiplier * round(stock_price / curr_val, rnd_val), 2)` — the
multiplier times the `-d`-rounded currency equivalent, rounded to two
decimal places rather than to the `-d` precision — and on the first tick
`best_value` equals exactly that value. -/
theorem c8_value_formula (cfg : Config) (s : TickerState) (inp : TickInput)
    (hkey : inp.key = none)
    (hp : ∃ p, inp.primary = .ok p)
    (hfx : cfg.currency = "usd" ∨ ∃ f, inp.fx = .ok f) :
    (runStep cfg s inp).1.value =
      tickValue cfg (runStep cfg s inp).1.stock_price (runStep cfg s inp).1.curr_val ∧
    (s.first_run = true →
      (runStep cfg s inp).1.best_value = (runStep cfg s inp).1.value) := by
  obtain ⟨p, hp⟩ := hp
  cases hfr : s.first_run with
  | false =>
    obtain ⟨sp, cv, b1, hf⟩ := fetchPhase_notfirst cfg s inp.primary inp.fx hfr
    have hopen := fetchPhase_ok_csv cfg s inp.primary inp.fx _ ⟨p, hp⟩ hfx hf
    obtain ⟨b, w, hrs⟩ := runStep_success cfg s inp _ hf hopen hkey
    rw [hrs]
    refine ⟨by simp, fun h => absurd h (by simp [hfr])⟩
  | true =>
    obtain ⟨cv, b1, hf, hb1⟩ := fetchPhase_first_ok cfg s p inp.fx hfr (by
      rcases hfx with hc | ⟨f, hf⟩
      · exact Or.inl hc
      · exact Or.inr ⟨f, hf⟩)
    rw [← hp] at hf
    have hopen := fetchPhase_ok_csv cfg s inp.primary inp.fx _ ⟨p, hp⟩ hfx hf
    obtain ⟨b, w, hrs⟩ := runStep_success cfg s inp _ hf hopen hkey
    rw [hrs]
    have h := computePhase_first_seed cfg
      { s with stock_price := pyRound p cfg.rnd_val,
               best_price := pyRound p cfg.rnd_val,
               last_best_price := pyRound p cfg.rnd_val, curr_val := cv,
               csv_open := b1 }
      inp.now hfr rfl
    exact ⟨by simp, fun _ => by simpa using h.2.2⟩

/-- C8, witness: a first GBP tick at price 1, fx rate 3. -/
theorem c8_value_formula_witness :
    baseState.first_run = true ∧
    (runStep cfgGbp baseState (inputAt (.ok 1) (.ok 3) "10:00:00")).1.value =
      tickValue cfgGbp
        (runStep cfgGbp baseState (inputAt (.ok 1) (.ok 3) "10:00:00")).1.stock_price
        (runStep cfgGbp baseState (inputAt (.ok 1) (.ok 3) "10:00:00")).1.curr_val ∧
    (runStep cfgGbp baseState (inputAt (.ok 1) (.ok 3) "10:00:00")).1.best_value =
      (runStep cfgGbp baseState (inputAt (.ok 1) (.ok 3) "10:00:00")).1.value := by
  have h := c8_value_formula cfgGbp baseState (inputAt (.ok 1) (.ok 3) "10:00:00")
    rfl ⟨1, rfl⟩ (Or.inr ⟨3, rfl⟩)
  exact ⟨rfl, h.1, h.2 rfl⟩

/-- C7, amended.  An `R` keystroke itself changes none of threshold,
thresholdStep, the refresh settings or the bell, and re-arms `first_run`;
when threshold-from-open (`-tv`) mode is off, the next successful tick
re-seeds `best_price`, `low_fx` and `best_value` from its own fetched data
and still leaves threshold, thresholdStep and the refresh settings
unchanged.  (When `-tv` is active, the re-seeding tick re-derives the
threshold from the new opening value — the counterexample.)  Symbol,
currency and multiplier live in the immutable `Config` and cannot change. -/
theorem c7_reset_behavior (cfg : Config) (s : TickerState) (inp : TickInput)
    (t d e : String) (htv : cfg.args_tv = false) (hkey : inp.key = none)
    (hp : ∃ p, inp.primary = .ok p)
    (hfx : cfg.currency = "usd" ∨ ∃ f, inp.fx = .ok f) :
    ((applyKey s 'R' t d e).threshold = s.threshold ∧
      (applyKey s 'R' t d e).thresh_change = s.thresh_change ∧
      (applyKey s 'R' t d e).refresh = s.refresh ∧
      (applyKey s 'R' t d e).refresh_inc = s.refresh_inc ∧
      (applyKey s 'R' t d e).bell = s.bell ∧
      (applyKey s 'R' t d e).first_run = true) ∧
    ((runStep cfg (applyKey s 'R' t d e) inp).1.best_price =
        (runStep cfg (applyKey s 'R' t d e) inp).1.stock_price ∧
      (runStep cfg (applyKey s 'R' t d e) inp).1.low_fx =
        (runStep cfg (applyKey s 'R' t d e) inp).1.curr_val ∧
      (runStep cfg (applyKey s 'R' t d e) inp).1.best_value =
        (runStep cfg (applyKey s 'R' t d e) inp).1.value ∧
      (runStep cfg (applyKey s 'R' t d e) inp).1.threshold = s.threshold ∧
      (runStep cfg (applyKey s 'R' t d e) inp).1.thresh_change = s.thresh_change ∧
      (runStep cfg (applyKey s 'R' t d e) inp).1.refresh = s.refresh ∧
      (runStep cfg (applyKey s 'R' t d e) inp).1.refresh_inc = s.refresh_inc) := by
  obtain ⟨p, hp⟩ := hp
  have hfrR : (applyKey s 'R' t d e).first_run = true := by simp [applyKey]
  obtain ⟨cv, b1, hf, hb1⟩ := fetchPhase_first_ok cfg (applyKey s 'R' t d e) p inp.fx hfrR (by
    rcases hfx with hc | ⟨f, hf⟩
    · exact Or.inl hc
    · exact Or.inr ⟨f, hf⟩)
  rw [← hp] at hf
  have hopen := fetchPhase_ok_csv cfg (applyKey s 'R' t d e) inp.primary inp.fx _
    ⟨p, hp⟩ hfx hf
  obtain ⟨b, w, hrs⟩ := runStep_success cfg (applyKey s 'R' t d e) inp _ hf hopen hkey
  refine ⟨by simp [applyKey], ?_⟩
  rw [hrs]
  have h := computePhase_first_seed cfg { applyKey s 'R' t d e with stock_price := pyRound p cfg.rnd_val, best_price := pyRound p cfg.rnd_val, last_best_price := pyRound p cfg.rnd_val, curr_val := cv, csv_open := b1 } inp.now hfrR rfl
  refine ⟨by simpa using h.1, by simpa using h.2.1, by simpa using h.2.2, ?_, ?_, ?_, ?_⟩
  · rw [show ∀ (u : TickerState) (v : Bool), ({ u with csv_open := v, first_run := false } : TickerState).threshold = u.threshold from fun u v => rfl,
        computePhase_threshold cfg _ inp.now htv]
    simp [applyKey]
  · rw [show ∀ (u : TickerState) (v : Bool), ({ u with csv_open := v, first_run := false } : TickerState).thresh_change = u.thresh_change from fun u v => rfl,
        computePhase_thresh_change cfg _ inp.now htv]
    simp [applyKey]
  · simp [applyKey]
  · simp [applyKey]

/-- C7, witness: the spec scenario — best price 150 at current price 120, an
`R` keystroke, then one successful tick at price 120 re-seeds
`best_price = 120`, with threshold and step untouched. -/
theorem c7_reset_behavior_witness :
    cfgUsd.args_tv = false ∧
    (applyKey sBest150 'R' "t2" "d2" "e2").threshold = sBest150.threshold ∧
    (runStep cfgUsd (applyKey sBest150 'R' "t2" "d2" "e2")
      (inputAt (.ok 120) (.ok 1) "10:05:00")).1.best_price = 120 ∧
    (runStep cfgUsd (applyKey sBest150 'R' "t2" "d2" "e2")
      (inputAt (.ok 120) (.ok 1) "10:05:00")).1.threshold = sBest150.threshold := by
  have h := c7_reset_behavior cfgUsd sBest150 (inputAt (.ok 120) (.ok 1) "10:05:00")
    "t2" "d2" "e2" rfl rfl ⟨120, rfl⟩ (Or.inl rfl)
  refine ⟨rfl, h.1.1, ?_, h.2.2.2.2.1⟩
  rw [h.2.1]
  decide

/-- On a non-first tick whose registers do not improve on any held mark (in
particular after a completely failed fetch), the compute phase leaves all six
best/low marks and their timestamps exactly as they were. -/
theorem computePhase_stale (cfg : Config) (t : TickerState) (now : String)
    (hfr : t.first_run = false)
    (h1 : t.stock_price ≤ t.best_price) (h2 : t.low_fx ≤ t.curr_val)
    (h3 : cfg.args_b = true → tickValue cfg t.stock_price t.curr_val ≤ t.best_value) :
    (computePhase cfg t now).1.best_price = t.best_price ∧
    (computePhase cfg t now).1.peak_stk_time = t.peak_stk_time ∧
    (computePhase cfg t now).1.low_fx = t.low_fx ∧
    (computePhase cfg t now).1.low_fx_time = t.low_fx_time ∧
    (computePhase cfg t now).1.best_value = t.best_value ∧
    (computePhase cfg t now).1.peak_val_time = t.peak_val_time := by
  have hle1 : (computeValues cfg t).stock_price ≤ (computeValues cfg t).best_price := by
    simpa using h1
  have hle2 : (computeValues cfg t).low_fx ≤ (computeValues cfg t).curr_val := by
    simpa [hfr] using h2
  simp only [computePhase]
  refine ⟨?_, ?_, ?_, ?_, ?_, ?_⟩
  · simp only [bestLineStep_best_price, priceLineStep_best_price]
    rw [show ∀ u : TickerState, ({ u with tick_tock := !u.tick_tock } : TickerState).best_price = u.best_price from fun u => rfl]
    rw [updateBests_best_price_of_le _ _ hle1]
    simp
  · simp only [bestLineStep_peak_stk_time, priceLineStep_peak_stk_time]
    rw [show ∀ u : TickerState, ({ u with tick_tock := !u.tick_tock } : TickerState).peak_stk_time = u.peak_stk_time from fun u => rfl]
    rw [updateBests_peak_stk_time_of_le _ _ hle1]
    simp
  · simp only [bestLineStep_low_fx, priceLineStep_low_fx]
    rw [show ∀ u : TickerState, ({ u with tick_tock := !u.tick_tock } : TickerState).low_fx = u.low_fx from fun u => rfl]
    rw [updateBests_low_fx_of_le _ _ hle2]
    simp [hfr]
  · simp only [bestLineStep_low_fx_time, priceLineStep_low_fx_time]
    rw [show ∀ u : TickerState, ({ u with tick_tock := !u.tick_tock } : TickerState).low_fx_time = u.low_fx_time from fun u => rfl]
    rw [updateBests_low_fx_time_of_le _ _ hle2]
    simp
  · cases hb : cfg.args_b with
    | false =>
      rw [bestLineStep_best_value_brief _ _ _ hb]
      simp [hfr]
    | true =>
      have hv : (priceLineStep cfg { updateBests (computeValues cfg t) now with
          tick_tock := !(updateBests (computeValues cfg t) now).tick_tock }).1.value ≤
          (priceLineStep cfg { updateBests (computeValues cfg t) now with
          tick_tock := !(updateBests (computeValues cfg t) now).tick_tock }).1.best_value := by
        simpa [hfr] using h3 hb
      rw [bestLineStep_best_value_of_le cfg _ now (by simp [hfr]) hv]
      simp [hfr]
  · cases hb : cfg.args_b with
    | false =>
      rw [bestLineStep_peak_val_time_brief _ _ _ hb]
      simp
    | true =>
      have hv : (priceLineStep cfg { updateBests (computeValues cfg t) now with
          tick_tock := !(updateBests (computeValues cfg t) now).tick_tock }).1.value ≤
          (priceLineStep cfg { updateBests (computeValues cfg t) now with
          tick_tock := !(updateBests (computeValues cfg t) now).tick_tock }).1.best_value := by
        simpa [hfr] using h3 hb
      rw [bestLineStep_peak_val_time_of_le cfg _ now hv]
      simp

/-- C1, amended.  On every tick after the first whose fetch fails, the four
error kinds are caught, but what happens next depends on whether a CSV
output file is configured.  With no output file the loop continues, and the
tick is not skipped: when the primary fetch fails both registers keep their
last-known values, so (given the standing invariants that the held marks
dominate the registers) none of the six best/low marks moves and no CSV
record is emitted; when only the fx fetch fails the tick proceeds with the
fresh price and the stale fx rate, so Session State can move (the
counterexample shows `best_price` advancing).  With an output file
configured, the CSV handle was closed by the previous tick's write and is
reopened only after a successful fetch, so the failed tick's CSV write
raises an uncaught `ValueError` and the process dies with exit status 1 —
no record is emitted and the loop does not continue. -/
theorem c1_failed_tick (cfg : Config) (s : TickerState) (inp : TickInput)
    (hfr : s.first_run = false) (hkey : inp.key = none) :
    (∀ e : FetchErr, inp.primary = .error e → cfg.out_file = "" →
      s.stock_price ≤ s.best_price → s.low_fx ≤ s.curr_val →
      (cfg.args_b = true → tickValue cfg s.stock_price s.curr_val ≤ s.best_value) →
      (loopIter cfg s inp).isOk = true ∧
      (runStep cfg s inp).1.best_price = s.best_price ∧
      (runStep cfg s inp).1.peak_stk_time = s.peak_stk_time ∧
      (runStep cfg s inp).1.low_fx = s.low_fx ∧
      (runStep cfg s inp).1.low_fx_time = s.low_fx_time ∧
      (runStep cfg s inp).1.best_value = s.best_value ∧
      (runStep cfg s inp).1.peak_val_time = s.peak_val_time ∧
      (runStep cfg s inp).2.csv_emitted = false) ∧
    (∀ (p : ℚ) (e : FetchErr), inp.primary = .ok p → inp.fx = .error e →
      cfg.currency ≠ "usd" → cfg.out_file = "" →
      (loopIter cfg s inp).isOk = true ∧
      (runStep cfg s inp).1.stock_price = pyRound p cfg.rnd_val ∧
      (runStep cfg s inp).1.curr_val = s.curr_val) ∧
    (∀ e : FetchErr, inp.primary = .error e →
      cfg.out_file ≠ "" → s.csv_open = false →
      exitCode (loopIter cfg s inp) = some 1) ∧
    (∀ (p : ℚ) (e : FetchErr), inp.primary = .ok p → inp.fx = .error e →
      cfg.currency ≠ "usd" → cfg.out_file ≠ "" → s.csv_open = false →
      exitCode (loopIter cfg s inp) = some 1) := by
  refine ⟨?_, ?_, ?_, ?_⟩
  · intro e hpe ho hd1 hd2 hd3
    have hf : fetchPhase cfg s inp.primary inp.fx = .ok s := by
      simp [fetchPhase, hpe, hfr]
    have hopen : cfg.out_file ≠ "" → s.csv_open = true := fun h => absurd ho h
    have h := computePhase_stale cfg s inp.now hfr hd1 hd2 hd3
    have hcsv : csvStep cfg (computePhase cfg s inp.now).1 =
        .ok ({ (computePhase cfg s inp.now).1 with
          csv_open := (computePhase cfg s inp.now).1.csv_open }, false) :=
      csvStep_no_out cfg _ ho
    refine ⟨loopIter_isOk_of_fetch cfg s inp _ hf hopen, ?_⟩
    rw [runStep_ok cfg s inp s _ false hf hcsv hkey]
    exact ⟨by simpa using h.1, by simpa using h.2.1, by simpa using h.2.2.1,
      by simpa using h.2.2.2.1, by simpa using h.2.2.2.2.1,
      by simpa using h.2.2.2.2.2, by simp⟩
  · intro p e hpp hpfx hc ho
    have hf : fetchPhase cfg s inp.primary inp.fx =
        .ok { s with stock_price := pyRound p cfg.rnd_val } := by
      simp [fetchPhase, hpp, hpfx, hc, hfr]
    have hopen : cfg.out_file ≠ "" →
        ({ s with stock_price := pyRound p cfg.rnd_val } : TickerState).csv_open
          = true := fun h => absurd ho h
    obtain ⟨b, w, hrs⟩ := runStep_success cfg s inp _ hf hopen hkey
    refine ⟨loopIter_isOk_of_fetch cfg s inp _ hf hopen, ?_, ?_⟩
    · rw [hrs]; simp
    · rw [hrs]; simp
  · intro e hpe ho hcl
    have hf : fetchPhase cfg s inp.primary inp.fx = .ok s := by
      simp [fetchPhase, hpe, hfr]
    have hcs : csvStep cfg (computePhase cfg s inp.now).1 = .error 1 :=
      csvStep_closed cfg _ ho (by rw [computePhase_csv_open]; exact hcl)
    simp [exitCode, loopIter, hf, hcs]
  · intro p e hpp hpfx hc ho hcl
    have hf : fetchPhase cfg s inp.primary inp.fx =
        .ok { s with stock_price := pyRound p cfg.rnd_val } := by
      simp [fetchPhase, hpp, hpfx, hc, hfr]
    have hcs : csvStep cfg (computePhase cfg
        { s with stock_price := pyRound p cfg.rnd_val } inp.now).1 = .error 1 :=
      csvStep_closed cfg _ ho (by rw [computePhase_csv_open]; exact hcl)
    simp [exitCode, loopIter, hf, hcs]

/-- C1, witness: a fully failed fetch on a mid-run tick without CSV output —
no mark moves, no record is written, the loop continues — and the same
failed tick with CSV output configured dies with exit status 1. -/
theorem c1_failed_tick_witness :
    sMidRun.first_run = false ∧
    (loopIter cfgGbp sMidRun
      (inputAt (.error .readTimeout) (.error .readTimeout) "10:02:00")).isOk = true ∧
    (runStep cfgGbp sMidRun
      (inputAt (.error .readTimeout) (.error .readTimeout) "10:02:00")).1.best_price
      = sMidRun.best_price ∧
    (runStep cfgGbp sMidRun
      (inputAt (.error .readTimeout) (.error .readTimeout) "10:02:00")).1.best_value
      = sMidRun.best_value ∧
    (runStep cfgGbp sMidRun
      (inputAt (.error .readTimeout) (.error .readTimeout) "10:02:00")).2.csv_emitted
      = false ∧
    exitCode (loopIter cfgGbpCsv sMidRun
      (inputAt (.error .readTimeout) (.error .readTimeout) "10:02:00")) = some 1 := by
  have h := (c1_failed_tick cfgGbp sMidRun
    (inputAt (.error .readTimeout) (.error .readTimeout) "10:02:00") rfl rfl).1
    .readTimeout rfl rfl (by decide) (by decide) (fun _ => by decide)
  have h2 := (c1_failed_tick cfgGbpCsv sMidRun
    (inputAt (.error .readTimeout) (.error .readTimeout) "10:02:00") rfl rfl).2.2.1
    .readTimeout rfl (by decide) rfl
  exact ⟨rfl, h.1, h.2.1, h.2.2.2.2.2.1, h.2.2.2.2.2.2.2, h2⟩

/-- C2.  Under the data-model invariant `threshold ≥ 0`: the VALUE-line
classification returns `thresholdCrossed` iff `threshold > 0` and
`multiplier × currencyEquivalent > threshold` (strict, computed on the
pre-rounding product), and this takes priority over `newHigh`; it returns
`newHigh` iff there is no threshold crossing and `value` strictly exceeds the
pre-update `best_value`; and an iteration entered with `first_run` set
reports no classification at all. -/
theorem c2_alert_classification (threshold multiplier curr_equiv value best_value : ℚ)
    (ht : 0 ≤ threshold) (cfg : Config) (s : TickerState) (inp : TickInput) :
    (classifyValueLine threshold multiplier curr_equiv value best_value = .thresholdCrossed ↔
      0 < threshold ∧ threshold < multiplier * curr_equiv) ∧
    (classifyValueLine threshold multiplier curr_equiv value best_value = .newHigh ↔
      ¬(0 < threshold ∧ threshold < multiplier * curr_equiv) ∧ best_value < value) ∧
    (s.first_run = true → (runStep cfg s inp).2.alert = none) := by
  refine ⟨?_, ?_, ?_⟩
  · constructor
    · intro h
      unfold classifyValueLine at h
      by_cases h1 : threshold ≠ 0
      · rw [if_pos h1] at h
        by_cases h2 : threshold < multiplier * curr_equiv
        · exact ⟨lt_of_le_of_ne ht (Ne.symm h1), h2⟩
        · rw [if_neg h2] at h
          by_cases h3 : best_value < value
          · rw [if_pos h3] at h; exact absurd h (by simp)
          · rw [if_neg h3] at h; exact absurd h (by simp)
      · rw [if_neg h1] at h
        by_cases h3 : best_value < value
        · rw [if_pos h3] at h; exact absurd h (by simp)
        · rw [if_neg h3] at h; exact absurd h (by simp)
    · rintro ⟨hpos, hlt⟩
      unfold classifyValueLine
      rw [if_pos (ne_of_gt hpos), if_pos hlt]
  · constructor
    · intro h
      unfold classifyValueLine at h
      by_cases h1 : threshold ≠ 0
      · rw [if_pos h1] at h
        by_cases h2 : threshold < multiplier * curr_equiv
        · rw [if_pos h2] at h; exact absurd h (by simp)
        · rw [if_neg h2] at h
          by_cases h3 : best_value < value
          · exact ⟨fun hc => h2 hc.2, h3⟩
          · rw [if_neg h3] at h; exact absurd h (by simp)
      · rw [if_neg h1] at h
        by_cases h3 : best_value < value
        · exact ⟨fun hc => h1 (ne_of_gt hc.1), h3⟩
        · rw [if_neg h3] at h; exact absurd h (by simp)
    · rintro ⟨hno, hB⟩
      unfold classifyValueLine
      by_cases h1 : threshold ≠ 0
      · have h2 : ¬threshold < multiplier * curr_equiv := fun hlt =>
          hno ⟨lt_of_le_of_ne ht (Ne.symm h1), hlt⟩
        rw [if_pos h1, if_neg h2, if_pos hB]
      · rw [if_neg h1, if_pos hB]
  · intro hfr
    exact runStep_alert_first cfg s inp hfr

/-- C2, witness: threshold 100 crossed by a pre-rounding product of 105, and
a classification-free first tick. -/
theorem c2_alert_classification_witness :
    (0 : ℚ) ≤ 100 ∧
    classifyValueLine 100 1 105 105 90 = .thresholdCrossed ∧
    baseState.first_run = true ∧
    (runStep cfgUsd baseState (inputAt (.ok 50) (.ok 1) "t")).2.alert = none := by
  have h := c2_alert_classification 100 1 105 105 90 (by norm_num) cfgUsd baseState
    (inputAt (.ok 50) (.ok 1) "t")
  exact ⟨by norm_num, h.1.mpr (by norm_num), rfl, h.2.2 rfl⟩

/-- C3, counterexample.  The claim says that on every tick after the first
the four fetch-failure kinds are non-fatal and the loop continues to the
next scheduled fetch.  With a CSV output file configured the opposite
happens: the previous tick's write closed the CSV handle, the failed fetch
skips the reopen of lines 376-380, and the tick's CSV write raises an
uncaught `ValueError` that kills the process with exit status 1 — the
iteration does not return and the loop does not continue. -/
theorem c3_counterexample :
    sMidRun.first_run = false ∧
    exitCode (loopIter cfgGbpCsv sMidRun
      (inputAt (.error .connectionError) (.ok 2) "10:02:00")) = some 1 ∧
    (loopIter cfgGbpCsv sMidRun
      (inputAt (.error .connectionError) (.ok 2) "10:02:00")).isOk = false := by
  decide

/-- C3, amended.  On the very first tick of a run, a primary-fetch failure of
any of the four error kinds makes the iteration exit the process with status
3 (non-zero), producing no state at all — in particular no state
initialization happens.  On every later tick the same failure kinds (on
either fetch) are non-fatal and the loop continues when no CSV output file
is configured; when one is configured, the failed tick writes to the CSV
handle closed by the previous tick's write and the process instead dies with
exit status 1. -/
theorem c3_first_tick_fatal (cfg : Config) (s : TickerState) (inp : TickInput) :
    (s.first_run = true → ∀ e : FetchErr, inp.primary = .error e →
      exitCode (loopIter cfg s inp) = some 3 ∧ (3 : ℕ) ≠ 0) ∧
    (s.first_run = false → cfg.out_file = "" →
      (∀ e : FetchErr, inp.primary = .error e → (loopIter cfg s inp).isOk = true) ∧
      (∀ (p : ℚ) (e : FetchErr), inp.primary = .ok p → inp.fx = .error e →
        (loopIter cfg s inp).isOk = true)) ∧
    (s.first_run = false → cfg.out_file ≠ "" → s.csv_open = false →
      ∀ e : FetchErr, inp.primary = .error e →
        exitCode (loopIter cfg s inp) = some 1) := by
  refine ⟨?_, fun hfr ho => ⟨?_, ?_⟩, ?_⟩
  · intro hfr e hp
    simp [loopIter, fetchPhase, hp, hfr, exitCode]
  · intro e hp
    have hf : fetchPhase cfg s inp.primary inp.fx = .ok s := by
      simp [fetchPhase, hp, hfr]
    exact loopIter_isOk_of_fetch cfg s inp s hf (fun h => absurd ho h)
  · intro p e hp hfx
    by_cases hc : cfg.currency = "usd"
    · have hf : fetchPhase cfg s inp.primary inp.fx =
          .ok (openCsv cfg { s with stock_price := pyRound p cfg.rnd_val, curr_val := 1 }) := by
        simp [fetchPhase, hp, hc, hfr]
      exact loopIter_isOk_of_fetch cfg s inp _ hf (fun h => absurd ho h)
    · have hf : fetchPhase cfg s inp.primary inp.fx =
          .ok { s with stock_price := pyRound p cfg.rnd_val } := by
        simp [fetchPhase, hp, hfx, hc, hfr]
      exact loopIter_isOk_of_fetch cfg s inp _ hf (fun h => absurd ho h)
  · intro hfr ho hcl e hp
    have hf : fetchPhase cfg s inp.primary inp.fx = .ok s := by
      simp [fetchPhase, hp, hfr]
    have hcs : csvStep cfg (computePhase cfg s inp.now).1 = .error 1 :=
      csvStep_closed cfg _ ho (by rw [computePhase_csv_open]; exact hcl)
    simp [exitCode, loopIter, hf, hcs]

/-- C3, witness: a concrete first tick whose primary fetch raises a
connection failure exits with status 3, and a later failed tick without CSV
output configured returns normally. -/
theorem c3_first_tick_fatal_witness :
    baseState.first_run = true ∧
    exitCode (loopIter cfgUsd baseState
      (inputAt (.error .connectionError) (.ok 1) "t")) = some 3 ∧ (3 : ℕ) ≠ 0 ∧
    sMidRun.first_run = false ∧ cfgGbp.out_file = "" ∧
    (loopIter cfgGbp sMidRun
      (inputAt (.error .connectionError) (.ok 2) "t2")).isOk = true := by
  have h1 := (c3_first_tick_fatal cfgUsd baseState
    (inputAt (.error .connectionError) (.ok 1) "t")).1 rfl .connectionError rfl
  have h2 := ((c3_first_tick_fatal cfgGbp sMidRun
    (inputAt (.error .connectionError) (.ok 2) "t2")).2.1 rfl rfl).1
    .connectionError rfl
  exact ⟨rfl, h1.1, h1.2, rfl, rfl, h2⟩

/-- C9.  On a successful non-first tick (in full output mode, with no
keystroke pending) the held best is compared with the tick's recomputed
value in all three ways: an exact tie leaves `best_value` and its timestamp
unchanged and renders the `matched` highlight; a strict improvement — and
only a strict improvement — updates them, rendering `improved`; and a
strictly lower value leaves both unchanged, rendering the plain line. -/
theorem c9_tie_semantics (cfg : Config) (s : TickerState) (inp : TickInput)
    (hb : cfg.args_b = true) (hfr : s.first_run = false) (hkey : inp.key = none)
    (hp : ∃ p, inp.primary = .ok p)
    (hfx : cfg.currency = "usd" ∨ ∃ f, inp.fx = .ok f) :
    ((runStep cfg s inp).1.value = s.best_value →
      (runStep cfg s inp).1.best_value = s.best_value ∧
      (runStep cfg s inp).1.peak_val_time = s.peak_val_time ∧
      (runStep cfg s inp).2.bestLine = .matched) ∧
    (s.best_value < (runStep cfg s inp).1.value →
      (runStep cfg s inp).1.best_value = (runStep cfg s inp).1.value ∧
      (runStep cfg s inp).1.peak_val_time = inp.now ∧
      (runStep cfg s inp).2.bestLine = .improved) ∧
    ((runStep cfg s inp).1.value < s.best_value →
      (runStep cfg s inp).1.best_value = s.best_value ∧
      (runStep cfg s inp).1.peak_val_time = s.peak_val_time ∧
      (runStep cfg s inp).2.bestLine = .plain) := by
  obtain ⟨p0, hp0⟩ := hp
  obtain ⟨sp, cv, b1, hf⟩ := fetchPhase_notfirst cfg s inp.primary inp.fx hfr
  have hopen := fetchPhase_ok_csv cfg s inp.primary inp.fx _ ⟨p0, hp0⟩ hfx hf
  obtain ⟨b, w, hrs⟩ := runStep_success cfg s inp _ hf hopen hkey
  rw [hrs]
  have hfr1 : ({ s with stock_price := sp, curr_val := cv, csv_open := b1 } :
      TickerState).first_run = false := by simp [hfr]
  refine ⟨?_, ?_, ?_⟩
  · intro hv
    simp at hv
    have h := computePhase_tie cfg
      { s with stock_price := sp, curr_val := cv, csv_open := b1 } inp.now hb hfr1
      (by simpa using hv)
    exact ⟨by simpa using h.1, by simpa using h.2.1, by simpa using h.2.2⟩
  · intro hv
    simp at hv
    have h := computePhase_improve cfg
      { s with stock_price := sp, curr_val := cv, csv_open := b1 } inp.now hb hfr1
      (by simpa using hv)
    exact ⟨by simp [h.1], by simpa using h.2.1, by simpa using h.2.2⟩
  · intro hv
    simp at hv
    have h := computePhase_decline cfg
      { s with stock_price := sp, curr_val := cv, csv_open := b1 } inp.now hb hfr1
      (by simpa using hv)
    exact ⟨by simpa using h.1, by simpa using h.2.1, by simpa using h.2.2⟩

/-- C9, witness: a successful tick at price 100 against a held best value of
100 is a tie — the BEST line matches, nothing moves. -/
theorem c9_tie_semantics_witness :
    cfgUsd.args_b = true ∧ sTie.first_run = false ∧
    (runStep cfgUsd sTie (inputAt (.ok 100) (.ok 1) "11:00:00")).1.value
      = sTie.best_value ∧
    (runStep cfgUsd sTie (inputAt (.ok 100) (.ok 1) "11:00:00")).1.best_value
      = sTie.best_value ∧
    (runStep cfgUsd sTie (inputAt (.ok 100) (.ok 1) "11:00:00")).1.peak_val_time
      = sTie.peak_val_time ∧
    (runStep cfgUsd sTie (inputAt (.ok 100) (.ok 1) "11:00:00")).2.bestLine
      = .matched := by
  have h := (c9_tie_semantics cfgUsd sTie (inputAt (.ok 100) (.ok 1) "11:00:00")
    rfl rfl rfl ⟨100, rfl⟩ (Or.inl rfl)).1 (by decide)
  exact ⟨rfl, rfl, by decide, h.1, h.2.1, h.2.2⟩

/-- C10.  In brief output mode (`-b` given, so `args.b` is false): no
successful tick after the baseline ever updates `best_value` or
`peak_val_time` — even when the new value strictly exceeds the held best —
so `val_delta` is always computed against the opening best value; and across
any normally completing run of keystroke-free ticks the pair keeps the
values seeded on the first tick. -/
theorem c10_brief_mode (cfg : Config) (hb : cfg.args_b = false) :
    (∀ (s : TickerState) (inp : TickInput), s.first_run = false → inp.key = none →
      (∃ p, inp.primary = .ok p) →
      (cfg.currency = "usd" ∨ ∃ f, inp.fx = .ok f) →
      (runStep cfg s inp).1.best_value = s.best_value ∧
      (runStep cfg s inp).1.peak_val_time = s.peak_val_time ∧
      (runStep cfg s inp).1.val_delta = some (pyRound
        (((runStep cfg s inp).1.value / s.best_value - 1) * 100) 2)) ∧
    (∀ (s : TickerState) (inps : List TickInput), s.first_run = false →
      (∀ i ∈ inps, i.key = none) →
      ∀ sf outs, runTicks cfg s inps = .ok (sf, outs) →
        sf.best_value = s.best_value ∧ sf.peak_val_time = s.peak_val_time) := by
  refine ⟨?_, ?_⟩
  · intro s inp hfr hkey hp hfx
    obtain ⟨p0, hp0⟩ := hp
    obtain ⟨sp, cv, b1, hf⟩ := fetchPhase_notfirst cfg s inp.primary inp.fx hfr
    have hopen := fetchPhase_ok_csv cfg s inp.primary inp.fx _ ⟨p0, hp0⟩ hfx hf
    obtain ⟨b, w, hrs⟩ := runStep_success cfg s inp _ hf hopen hkey
    rw [hrs]
    refine ⟨?_, ?_, ?_⟩
    · have h := computePhase_best_value_brief cfg
        { s with stock_price := sp, curr_val := cv, csv_open := b1 } inp.now hb
        (by simp [hfr])
      simpa using h
    · have h := computePhase_peak_val_time_brief cfg
        { s with stock_price := sp, curr_val := cv, csv_open := b1 } inp.now hb
      simpa using h
    · have h := computePhase_val_delta_notfirst cfg
        { s with stock_price := sp, curr_val := cv, csv_open := b1 } inp.now
        (by simp [hfr])
      simpa using h
  · intro s inps
    induction inps generalizing s with
    | nil =>
      intro hfr hkeys sf outs hrun
      simp only [runTicks] at hrun
      simp at hrun
      rw [← hrun.1]
      exact ⟨rfl, rfl⟩
    | cons i rest ih =>
      intro hfr hkeys sf outs hrun
      simp only [runTicks] at hrun
      by_cases hq : s.quit_flag
      · rw [if_pos hq] at hrun
        simp at hrun
        rw [← hrun.1]
        exact ⟨rfl, rfl⟩
      · rw [if_neg hq] at hrun
        cases hlo : loopIter cfg s i with
        | error c =>
          rw [hlo] at hrun
          simp at hrun
        | ok pr =>
          obtain ⟨s2, out⟩ := pr
          rw [hlo] at hrun
          have hpres := loopIter_brief_preserve cfg hb s i s2 out hfr
            (hkeys i (by simp)) hlo
          simp only [] at hrun
          cases hrest : runTicks cfg s2 rest with
          | error c =>
            rw [hrest] at hrun
            simp at hrun
          | ok pr2 =>
            obtain ⟨sf2, outs2⟩ := pr2
            rw [hrest] at hrun
            simp at hrun
            have hr := ih s2 hpres.2.2.1
              (fun j hj => hkeys j (by simp [hj])) sf2 outs2 hrest
            rw [← hrun.1]
            exact ⟨hr.1.trans hpres.1, hr.2.trans hpres.2.1⟩

/-- C10, witness: a successful brief-mode tick at price 200 over a held best
value of 100 leaves `best_value` and its timestamp untouched. -/
theorem c10_brief_mode_witness :
    cfgBrief.args_b = false ∧ sTie.first_run = false ∧
    (runStep cfgBrief sTie (inputAt (.ok 200) (.ok 1) "12:00:00")).1.best_value
      = sTie.best_value ∧
    (runStep cfgBrief sTie (inputAt (.ok 200) (.ok 1) "12:00:00")).1.peak_val_time
      = sTie.peak_val_time := by
  have h := (c10_brief_mode cfgBrief rfl).1 sTie
    (inputAt (.ok 200) (.ok 1) "12:00:00") rfl rfl ⟨200, rfl⟩ (Or.inl rfl)
  exact ⟨rfl, rfl, h.1, h.2.1⟩

end PyTicker
